import Mathlib

/-!
Shallow embedding of the tiered gas meter in `moveos/src/gas/table.rs`
(struct `CostTable`, struct `GasCost`, struct `MoveOSGasMeter` and their
methods), together with theorems checking the natural-language specification
against it.

Machine integers: `u64` values are modelled as `Nat` with explicit overflow
checks (`checked_add`, `checked_mul`, `checked_sub`) mirroring the Rust
`checked_*` calls, and with wrapping addition (`(a + b) % 2 ^ 64`) where the
source uses the plain `Add::add` operator on `u64` (release-profile
semantics).

`BTreeMap<u64, u64>` is modelled as a list of key-value pairs sorted by
strictly increasing key (the `BTreeMap` invariant).  `collect()` from a
vector of pairs is modelled by `btFromList`, which inserts in order and
lets a later duplicate key overwrite an earlier one, exactly as `BTreeMap`
does.  The three range queries used by the source are modelled on the
sorted representation: `btGet` is `get(&k)` (exact key), `btLastLt` is
`range(..k).next_back()` (last entry of the prefix of keys `< k`), and
`btFirstGt` is `range((Excluded(k), Unbounded)).next()` (first entry with
key `> k`).

`Rc<RefCell<u64>>` accumulators are inlined as plain `Nat` fields: the
meter is single-owner and the interior mutability is only a borrow-checker
convenience (spec section 5).
-/

set_option maxRecDepth 4000

namespace MoveosGas

/-- `2 ^ 64`, the modulus of `u64` arithmetic. -/
def U64_MOD : Nat := 2 ^ 64

/-- `u64::MAX`. -/
def U64_MAX : Nat := 2 ^ 64 - 1

/-- Rust `u64::checked_add`. -/
def checked_add (a b : Nat) : Option Nat :=
  if a + b ≤ U64_MAX then some (a + b) else none

/-- Rust `u64::checked_mul`. -/
def checked_mul (a b : Nat) : Option Nat :=
  if a * b ≤ U64_MAX then some (a * b) else none

/-- Rust `u64::checked_sub`. -/
def checked_sub (a b : Nat) : Option Nat :=
  if b ≤ a then some (a - b) else none

/-- Rust `u64` `Add::add` under the release profile: wraps modulo `2 ^ 64`. -/
def wrapping_add (a b : Nat) : Nat := (a + b) % U64_MOD

/-- The subset of `StatusCode` produced by the gas meter. -/
inductive StatusCode where
  | OUT_OF_GAS
  | ARITHMETIC_ERROR
deriving DecidableEq, Repr

instance {ε α : Type _} [DecidableEq ε] [DecidableEq α] :
    DecidableEq (Except ε α) := fun a b =>
  match a, b with
  | .ok x, .ok y =>
    if h : x = y then .isTrue (h ▸ rfl)
    else .isFalse (fun hh => h (Except.ok.inj hh))
  | .error x, .error y =>
    if h : x = y then .isTrue (h ▸ rfl)
    else .isFalse (fun hh => h (Except.error.inj hh))
  | .ok _, .error _ => .isFalse (fun hh => Except.noConfusion hh)
  | .error _, .ok _ => .isFalse (fun hh => Except.noConfusion hh)

/-- A `BTreeMap<u64, u64>`: key-value pairs with strictly increasing keys. -/
abbrev BTree := List (Nat × Nat)

/-- The `BTreeMap` well-formedness invariant: keys strictly increase. -/
def sortedKeys : BTree → Bool
  | [] => true
  | [_] => true
  | a :: b :: rest => decide (a.1 < b.1) && sortedKeys (b :: rest)

/-- `BTreeMap::insert`: keeps keys sorted, overwrites an existing key. -/
def btInsert : BTree → Nat → Nat → BTree
  | [], k, v => [(k, v)]
  | (k', v') :: rest, k, v =>
    if k < k' then (k, v) :: (k', v') :: rest
    else if k = k' then (k, v) :: rest
    else (k', v') :: btInsert rest k v

/-- `Vec<(u64, u64)>::into_iter().collect::<BTreeMap<_, _>>()`: inserts in
order, a later duplicate key overwriting an earlier one. -/
def btFromList (l : List (Nat × Nat)) : BTree :=
  l.foldl (fun m kv => btInsert m kv.1 kv.2) []

/-- `BTreeMap::get(&k)`: the value at exactly key `k`. -/
def btGet : BTree → Nat → Option Nat
  | [], _ => none
  | (k', v) :: rest, k => if k' = k then some v else btGet rest k

/-- `BTreeMap::range(..k).next_back()`: on the sorted representation, the
value of the last entry of the prefix whose keys are `< k`. -/
def btLastLt : BTree → Nat → Option Nat
  | [], _ => none
  | (k', v) :: rest, k =>
    if k' < k then some ((btLastLt rest k).getD v) else none

/-- `BTreeMap::range((Excluded(k), Unbounded)).next()`: on the sorted
representation, the key of the first entry whose key is `> k`. -/
def btFirstGt : BTree → Nat → Option Nat
  | [], _ => none
  | (k', _) :: rest, k => if k < k' then some k' else btFirstGt rest k

/-- `const INSTRUCTION_TIER_DEFAULT: u64 = 1`. -/
def INSTRUCTION_TIER_DEFAULT : Nat := 1

/-- `const STACK_HEIGHT_TIER_DEFAULT: u64 = 1`. -/
def STACK_HEIGHT_TIER_DEFAULT : Nat := 1

/-- `const STACK_SIZE_TIER_DEFAULT: u64 = 1`. -/
def STACK_SIZE_TIER_DEFAULT : Nat := 1

/-- `struct CostTable`. -/
structure CostTable where
  instruction_tiers : BTree
  stack_height_tiers : BTree
  stack_size_tiers : BTree
deriving DecidableEq, Repr

/-- `CostTable::get_current_and_future_tier`. -/
def get_current_and_future_tier (tiers : BTree) (current default : Nat) :
    Nat × Option Nat :=
  let current_cost :=
    ((btGet tiers current).orElse (fun _ => btLastLt tiers current)).getD default
  let next_tier_start := btFirstGt tiers current
  (current_cost, next_tier_start)

/-- `CostTable::instruction_tier`. -/
def CostTable.instruction_tier (t : CostTable) (instr_count : Nat) :
    Nat × Option Nat :=
  get_current_and_future_tier t.instruction_tiers instr_count
    INSTRUCTION_TIER_DEFAULT

/-- `CostTable::stack_height_tier`. -/
def CostTable.stack_height_tier (t : CostTable) (stack_height : Nat) :
    Nat × Option Nat :=
  get_current_and_future_tier t.stack_height_tiers stack_height
    STACK_HEIGHT_TIER_DEFAULT

/-- `CostTable::stack_size_tier`. -/
def CostTable.stack_size_tier (t : CostTable) (stack_size : Nat) :
    Nat × Option Nat :=
  get_current_and_future_tier t.stack_size_tiers stack_size
    STACK_SIZE_TIER_DEFAULT

/-- `fn initial_cost_schedule()`, with the literal vectors from the source,
including the duplicate key `11500` in `stack_size_tiers`. -/
def initial_cost_schedule : CostTable :=
  let instruction_tiers := btFromList
    [(0, 1), (3000, 2), (6000, 3), (8000, 5), (9000, 9), (9500, 16),
     (10000, 29), (10500, 50), (15000, 100)]
  let stack_height_tiers := btFromList
    [(0, 1), (400, 2), (800, 3), (1200, 5), (1500, 9), (1800, 16),
     (2000, 29), (2200, 50), (5000, 100)]
  let stack_size_tiers := btFromList
    [(0, 1), (2000, 2), (5000, 3), (8000, 5), (10000, 9), (11000, 16),
     (11500, 29), (11500, 50), (20000, 100)]
  { instruction_tiers := instruction_tiers,
    stack_size_tiers := stack_size_tiers,
    stack_height_tiers := stack_height_tiers }

/-- `fn zero_cost_schedule()`: a single entry `0 → 0` in each tier table. -/
def zero_cost_schedule : CostTable :=
  let zero_tier := btInsert [] 0 0
  { instruction_tiers := zero_tier,
    stack_size_tiers := zero_tier,
    stack_height_tiers := zero_tier }

/-- `struct GasCost`. -/
structure GasCost where
  instruction_gas : Nat
  memory_gas : Nat
  stack_height_gas : Nat
deriving DecidableEq, Repr

/-- `GasCost::total_internal`: the source sums the three components with the
plain `u64` `Add` operator, so the sum wraps modulo `2 ^ 64`. -/
def GasCost.total_internal (g : GasCost) : Nat :=
  wrapping_add (wrapping_add g.instruction_gas g.memory_gas) g.stack_height_gas

/-- `struct MoveOSGasMeter`. -/
structure MoveOSGasMeter where
  cost_table : CostTable
  gas_left : Nat
  charge : Bool
  execution_gas_used : Nat
  storage_gas_used : Nat
  stack_height_high_water_mark : Nat
  stack_height_current : Nat
  stack_height_next_tier_start : Option Nat
  stack_height_current_tier_mult : Nat
  stack_size_high_water_mark : Nat
  stack_size_current : Nat
  stack_size_next_tier_start : Option Nat
  stack_size_current_tier_mult : Nat
  instructions_executed : Nat
  instructions_next_tier_start : Option Nat
  instructions_current_tier_mult : Nat
deriving DecidableEq, Repr

namespace MoveOSGasMeter

/-- `MoveOSGasMeter::new(cost_table, budget)`. -/
def new (cost_table : CostTable) (budget : Nat) : MoveOSGasMeter :=
  let shp := cost_table.stack_height_tier 0
  let ssp := cost_table.stack_size_tier 0
  let ip := cost_table.instruction_tier 0
  { gas_left := budget,
    cost_table := cost_table,
    charge := true,
    execution_gas_used := 0,
    storage_gas_used := 0,
    stack_height_high_water_mark := 0,
    stack_height_current := 0,
    stack_size_high_water_mark := 0,
    stack_size_current := 0,
    instructions_executed := 0,
    stack_height_current_tier_mult := shp.1,
    stack_size_current_tier_mult := ssp.1,
    instructions_current_tier_mult := ip.1,
    stack_height_next_tier_start := shp.2,
    stack_size_next_tier_start := ssp.2,
    instructions_next_tier_start := ip.2 }

/-- `MoveOSGasMeter::new_unmetered()`. -/
def new_unmetered : MoveOSGasMeter :=
  { cost_table := zero_cost_schedule,
    gas_left := 0,
    charge := false,
    execution_gas_used := 0,
    storage_gas_used := 0,
    stack_height_high_water_mark := 0,
    stack_height_current := 0,
    stack_height_next_tier_start := none,
    stack_height_current_tier_mult := 0,
    stack_size_high_water_mark := 0,
    stack_size_current := 0,
    stack_size_next_tier_start := none,
    stack_size_current_tier_mult := 0,
    instructions_executed := 0,
    instructions_next_tier_start := none,
    instructions_current_tier_mult := 0 }

/-- The source's tier-crossing block, shared by the three counter updates:
`if let Some(next) = next_tier_start { if new_value > next { re-query } }`.
Returns the (possibly re-queried) `(current_tier_mult, next_tier_start)`. -/
def tier_requery (tiers : BTree) (default mult : Nat) (nt : Option Nat)
    (new_value : Nat) : Nat × Option Nat :=
  match nt with
  | some next =>
    if new_value > next then get_current_and_future_tier tiers new_value default
    else (mult, nt)
  | none => (mult, nt)

/-- `MoveOSGasMeter::push_stack`. -/
def push_stack (m : MoveOSGasMeter) (pushes : Nat) :
    MoveOSGasMeter × Except StatusCode Unit :=
  match checked_add m.stack_height_current pushes with
  | none => (m, .error .ARITHMETIC_ERROR)
  | some new_height =>
    let hwm :=
      if new_height > m.stack_height_high_water_mark then new_height
      else m.stack_height_high_water_mark
    let mn := tier_requery m.cost_table.stack_height_tiers
      STACK_HEIGHT_TIER_DEFAULT m.stack_height_current_tier_mult
      m.stack_height_next_tier_start new_height
    ({ m with
        stack_height_high_water_mark := hwm,
        stack_height_current := new_height,
        stack_height_current_tier_mult := mn.1,
        stack_height_next_tier_start := mn.2 }, .ok ())

/-- `MoveOSGasMeter::increase_instruction_count`. -/
def increase_instruction_count (m : MoveOSGasMeter) (amount : Nat) :
    MoveOSGasMeter × Except StatusCode Unit :=
  match checked_add m.instructions_executed amount with
  | none => (m, .error .ARITHMETIC_ERROR)
  | some new_pc =>
    let mn := tier_requery m.cost_table.instruction_tiers
      INSTRUCTION_TIER_DEFAULT m.instructions_current_tier_mult
      m.instructions_next_tier_start new_pc
    ({ m with
        instructions_executed := new_pc,
        instructions_current_tier_mult := mn.1,
        instructions_next_tier_start := mn.2 }, .ok ())

/-- `MoveOSGasMeter::increase_stack_size`. -/
def increase_stack_size (m : MoveOSGasMeter) (size_amount : Nat) :
    MoveOSGasMeter × Except StatusCode Unit :=
  match checked_add m.stack_size_current size_amount with
  | none => (m, .error .ARITHMETIC_ERROR)
  | some new_size =>
    let hwm :=
      if new_size > m.stack_size_high_water_mark then new_size
      else m.stack_size_high_water_mark
    let mn := tier_requery m.cost_table.stack_size_tiers
      STACK_SIZE_TIER_DEFAULT m.stack_size_current_tier_mult
      m.stack_size_next_tier_start new_size
    ({ m with
        stack_size_high_water_mark := hwm,
        stack_size_current := new_size,
        stack_size_current_tier_mult := mn.1,
        stack_size_next_tier_start := mn.2 }, .ok ())

/-- `MoveOSGasMeter::pop_stack`: saturating subtraction (`Nat` subtraction
already saturates at zero). -/
def pop_stack (m : MoveOSGasMeter) (pops : Nat) : MoveOSGasMeter :=
  { m with stack_height_current := m.stack_height_current - pops }

/-- `MoveOSGasMeter::deduct_gas`.  On underflow the source sets
`gas_left = 0` and returns `OUT_OF_GAS`. -/
def deduct_gas (m : MoveOSGasMeter) (amount : Nat) :
    MoveOSGasMeter × Except StatusCode Unit :=
  if !m.charge then (m, .ok ())
  else
    match checked_sub m.gas_left amount with
    | some gl => ({ m with gas_left := gl }, .ok ())
    | none => ({ m with gas_left := 0 }, .error .OUT_OF_GAS)

/-- `MoveOSGasMeter::charge` (named `charge_op` here because `charge` is
already the name of the boolean field, as in the source struct).  The
`_decr_size` argument is accepted and ignored, exactly as in the source
(`decrease_stack_size` is commented out there). -/
def charge_op (m : MoveOSGasMeter)
    (num_instructions pushes pops incr_size _decr_size : Nat) :
    MoveOSGasMeter × Except StatusCode Nat :=
  match m.push_stack pushes with
  | (m, .error e) => (m, .error e)
  | (m, .ok ()) =>
    match m.increase_instruction_count num_instructions with
    | (m, .error e) => (m, .error e)
    | (m, .ok ()) =>
      match m.increase_stack_size incr_size with
      | (m, .error e) => (m, .error e)
      | (m, .ok ()) =>
        match checked_mul m.instructions_current_tier_mult num_instructions with
        | none => (m, .error .ARITHMETIC_ERROR)
        | some instruction_gas =>
          match checked_mul m.stack_size_current_tier_mult incr_size with
          | none => (m, .error .ARITHMETIC_ERROR)
          | some memory_gas =>
            match checked_mul m.stack_height_current_tier_mult pushes with
            | none => (m, .error .ARITHMETIC_ERROR)
            | some stack_height_gas =>
              let gas_cost :=
                (GasCost.mk instruction_gas memory_gas stack_height_gas).total_internal
              match m.deduct_gas gas_cost with
              | (m, .error e) => (m, .error e)
              | (m, .ok ()) => (m.pop_stack pops, .ok gas_cost)

/-- `MoveOSGasMeter::set_metering`. -/
def set_metering (m : MoveOSGasMeter) (enabled : Bool) : MoveOSGasMeter :=
  { m with charge := enabled }

/-- `ClassifiedGasMeter::charge_execution` for `MoveOSGasMeter`: adds with
the plain `u64` `Add` operator (wrapping). -/
def charge_execution (m : MoveOSGasMeter) (gas_cost : Nat) : MoveOSGasMeter :=
  { m with execution_gas_used := wrapping_add m.execution_gas_used gas_cost }

/-- `ClassifiedGasMeter::charge_io_write` for `MoveOSGasMeter`: a no-op. -/
def charge_io_write (m : MoveOSGasMeter) : MoveOSGasMeter := m

/-- `ClassifiedGasMeter::charge_change_set` for `MoveOSGasMeter`: a no-op
(the change set argument is ignored by the source). -/
def charge_change_set (m : MoveOSGasMeter) : MoveOSGasMeter := m

/-- `MoveOSGasMeter::charge_internal_execution`. -/
def charge_internal_execution (m : MoveOSGasMeter)
    (num_instructions pushes pops incr_size decr_size : Nat) :
    MoveOSGasMeter × Except StatusCode Unit :=
  match m.charge_op num_instructions pushes pops incr_size decr_size with
  | (m, .ok gas_cost) => (m.charge_execution gas_cost, .ok ())
  | (m, .error e) => (m, .error e)

/-- `GasMeter::charge_native_function` for `MoveOSGasMeter`, with the pushes
and total abstract size of the return values already extracted from the
iterator (a `None` iterator contributes `0` for both).  Note the source
calls `self.charge(...)` and `self.deduct_gas(...)` directly, not
`charge_internal_execution`. -/
def charge_native_function (m : MoveOSGasMeter)
    (amount pushes size_increase : Nat) :
    MoveOSGasMeter × Except StatusCode Unit :=
  match m.charge_op 0 pushes 0 size_increase 0 with
  | (m, .error e) => (m, .error e)
  | (m, .ok _) => m.deduct_gas amount

/-- `GasMeter::charge_native_function_before_execution` for
`MoveOSGasMeter`, with `pops = args.len()` and the folded
`stack_reduction_size` already extracted from the argument iterator. -/
def charge_native_function_before_execution (m : MoveOSGasMeter)
    (pops stack_reduction_size : Nat) :
    MoveOSGasMeter × Except StatusCode Unit :=
  m.charge_internal_execution 1 0 pops 0 stack_reduction_size

/-- `SwitchableGasMeter::stop_metering`. -/
def stop_metering (m : MoveOSGasMeter) : MoveOSGasMeter :=
  { m with charge := false }

/-- `SwitchableGasMeter::start_metering`. -/
def start_metering (m : MoveOSGasMeter) : MoveOSGasMeter :=
  { m with charge := true }

/-- `SwitchableGasMeter::is_metering`. -/
def is_metering (m : MoveOSGasMeter) : Bool := m.charge

end MoveOSGasMeter

/-- `struct GasStatement`. -/
structure GasStatement where
  execution_gas_used : Nat
  storage_gas_used : Nat
deriving DecidableEq, Repr

/-- `ClassifiedGasMeter::gas_statement` for `MoveOSGasMeter`. -/
def MoveOSGasMeter.gas_statement (m : MoveOSGasMeter) : GasStatement :=
  { execution_gas_used := m.execution_gas_used,
    storage_gas_used := m.storage_gas_used }

/-- The argument tuple of one `charge` invocation. -/
structure ChargeArgs where
  num_instructions : Nat
  pushes : Nat
  pops : Nat
  incr_size : Nat
  decr_size : Nat
deriving DecidableEq, Repr

/-- Run a sequence of `charge` invocations, stopping at the first error
(the state reached so far is kept, as with Rust's `&mut self` early
return). -/
def runCharges (m : MoveOSGasMeter) :
    List ChargeArgs → MoveOSGasMeter × Except StatusCode Unit
  | [] => (m, .ok ())
  | a :: rest =>
    match m.charge_op a.num_instructions a.pushes a.pops a.incr_size
        a.decr_size with
    | (m', .ok _) => runCharges m' rest
    | (m', .error e) => (m', .error e)

example :
    ((MoveOSGasMeter.new initial_cost_schedule 10000000).charge_op 1 1 0 8
      0).2 = .ok 10 := by decide

example :
    ((MoveOSGasMeter.new initial_cost_schedule 10000000).charge_op 1 1 0 8
      0).1.gas_left = 9999990 := by decide

/-! ### Extraction lemmas for the checked arithmetic and the charge phases -/

theorem checked_add_some {a b c : Nat} (h : checked_add a b = some c) :
    c = a + b ∧ a + b ≤ U64_MAX := by
  unfold checked_add at h; split at h <;> simp_all

theorem checked_mul_some {a b c : Nat} (h : checked_mul a b = some c) :
    c = a * b ∧ a * b ≤ U64_MAX := by
  unfold checked_mul at h; split at h <;> simp_all

theorem checked_sub_some {a b c : Nat} (h : checked_sub a b = some c) :
    c = a - b ∧ b ≤ a := by
  unfold checked_sub at h; split at h <;> simp_all

namespace MoveOSGasMeter

theorem push_stack_error {m m' : MoveOSGasMeter} {p : Nat} {e : StatusCode}
    (h : m.push_stack p = (m', .error e)) :
    e = .ARITHMETIC_ERROR ∧ m' = m ∧
      checked_add m.stack_height_current p = none := by
  unfold push_stack at h; split at h <;> simp_all

theorem push_stack_ok {m m' : MoveOSGasMeter} {p : Nat}
    (h : m.push_stack p = (m', .ok ())) :
    m' = { m with
      stack_height_high_water_mark :=
        if m.stack_height_current + p > m.stack_height_high_water_mark then
          m.stack_height_current + p
        else m.stack_height_high_water_mark,
      stack_height_current := m.stack_height_current + p,
      stack_height_current_tier_mult :=
        (tier_requery m.cost_table.stack_height_tiers STACK_HEIGHT_TIER_DEFAULT
          m.stack_height_current_tier_mult m.stack_height_next_tier_start
          (m.stack_height_current + p)).1,
      stack_height_next_tier_start :=
        (tier_requery m.cost_table.stack_height_tiers STACK_HEIGHT_TIER_DEFAULT
          m.stack_height_current_tier_mult m.stack_height_next_tier_start
          (m.stack_height_current + p)).2 } ∧
    m.stack_height_current + p ≤ U64_MAX := by
  unfold push_stack at h
  cases hA : checked_add m.stack_height_current p with
  | none => rw [hA] at h; simp_all
  | some nh =>
    rw [hA] at h
    obtain ⟨rfl, hle⟩ := checked_add_some hA
    simp only [Prod.mk.injEq] at h
    exact ⟨h.1.symm, hle⟩

theorem increase_instruction_count_error {m m' : MoveOSGasMeter} {n : Nat}
    {e : StatusCode} (h : m.increase_instruction_count n = (m', .error e)) :
    e = .ARITHMETIC_ERROR ∧ m' = m ∧
      checked_add m.instructions_executed n = none := by
  unfold increase_instruction_count at h; split at h <;> simp_all

theorem increase_instruction_count_ok {m m' : MoveOSGasMeter} {n : Nat}
    (h : m.increase_instruction_count n = (m', .ok ())) :
    m' = { m with
      instructions_executed := m.instructions_executed + n,
      instructions_current_tier_mult :=
        (tier_requery m.cost_table.instruction_tiers INSTRUCTION_TIER_DEFAULT
          m.instructions_current_tier_mult m.instructions_next_tier_start
          (m.instructions_executed + n)).1,
      instructions_next_tier_start :=
        (tier_requery m.cost_table.instruction_tiers INSTRUCTION_TIER_DEFAULT
          m.instructions_current_tier_mult m.instructions_next_tier_start
          (m.instructions_executed + n)).2 } ∧
    m.instructions_executed + n ≤ U64_MAX := by
  unfold increase_instruction_count at h
  cases hA : checked_add m.instructions_executed n with
  | none => rw [hA] at h; simp_all
  | some nh =>
    rw [hA] at h
    obtain ⟨rfl, hle⟩ := checked_add_some hA
    simp only [Prod.mk.injEq] at h
    exact ⟨h.1.symm, hle⟩

theorem increase_stack_size_error {m m' : MoveOSGasMeter} {s : Nat}
    {e : StatusCode} (h : m.increase_stack_size s = (m', .error e)) :
    e = .ARITHMETIC_ERROR ∧ m' = m ∧
      checked_add m.stack_size_current s = none := by
  unfold increase_stack_size at h; split at h <;> simp_all

theorem increase_stack_size_ok {m m' : MoveOSGasMeter} {s : Nat}
    (h : m.increase_stack_size s = (m', .ok ())) :
    m' = { m with
      stack_size_high_water_mark :=
        if m.stack_size_current + s > m.stack_size_high_water_mark then
          m.stack_size_current + s
        else m.stack_size_high_water_mark,
      stack_size_current := m.stack_size_current + s,
      stack_size_current_tier_mult :=
        (tier_requery m.cost_table.stack_size_tiers STACK_SIZE_TIER_DEFAULT
          m.stack_size_current_tier_mult m.stack_size_next_tier_start
          (m.stack_size_current + s)).1,
      stack_size_next_tier_start :=
        (tier_requery m.cost_table.stack_size_tiers STACK_SIZE_TIER_DEFAULT
          m.stack_size_current_tier_mult m.stack_size_next_tier_start
          (m.stack_size_current + s)).2 } ∧
    m.stack_size_current + s ≤ U64_MAX := by
  unfold increase_stack_size at h
  cases hA : checked_add m.stack_size_current s with
  | none => rw [hA] at h; simp_all
  | some ns =>
    rw [hA] at h
    obtain ⟨rfl, hle⟩ := checked_add_some hA
    simp only [Prod.mk.injEq] at h
    exact ⟨h.1.symm, hle⟩

theorem deduct_gas_error {m m' : MoveOSGasMeter} {a : Nat} {e : StatusCode}
    (h : m.deduct_gas a = (m', .error e)) :
    e = .OUT_OF_GAS ∧ m' = { m with gas_left := 0 } ∧ m.charge = true ∧
      ¬a ≤ m.gas_left := by
  unfold deduct_gas at h
  split at h
  · simp_all
  · rename_i hch
    cases hS : checked_sub m.gas_left a with
    | none =>
      rw [hS] at h
      simp only [Prod.mk.injEq] at h
      unfold checked_sub at hS
      split at hS
      · simp_all
      · simp_all
    | some gl => rw [hS] at h; simp_all

theorem deduct_gas_ok {m m' : MoveOSGasMeter} {a : Nat}
    (h : m.deduct_gas a = (m', .ok ())) :
    (m.charge = false ∧ m' = m) ∨
      (m.charge = true ∧ a ≤ m.gas_left ∧
        m' = { m with gas_left := m.gas_left - a }) := by
  unfold deduct_gas at h
  split at h
  · rename_i hch
    simp only [Bool.not_eq_true'] at hch
    simp only [Prod.mk.injEq] at h
    exact Or.inl ⟨hch, h.1.symm⟩
  · rename_i hch
    simp at hch
    cases hS : checked_sub m.gas_left a with
    | none => rw [hS] at h; simp_all
    | some gl =>
      rw [hS] at h
      obtain ⟨rfl, hle⟩ := checked_sub_some hS
      simp only [Prod.mk.injEq] at h
      exact Or.inr ⟨hch, hle, h.1.symm⟩

theorem charge_op_ok {m m' : MoveOSGasMeter} {n p q s d c : Nat}
    (h : m.charge_op n p q s d = (m', .ok c)) :
    ∃ m1 m2 m3 m4 ig mg sg,
      m.push_stack p = (m1, .ok ()) ∧
      m1.increase_instruction_count n = (m2, .ok ()) ∧
      m2.increase_stack_size s = (m3, .ok ()) ∧
      checked_mul m3.instructions_current_tier_mult n = some ig ∧
      checked_mul m3.stack_size_current_tier_mult s = some mg ∧
      checked_mul m3.stack_height_current_tier_mult p = some sg ∧
      c = (GasCost.mk ig mg sg).total_internal ∧
      m3.deduct_gas c = (m4, .ok ()) ∧
      m' = m4.pop_stack q := by
  unfold charge_op at h
  split at h
  · exact absurd h (by simp)
  · rename_i m1 h1
    split at h
    · exact absurd h (by simp)
    · rename_i m2 h2
      split at h
      · exact absurd h (by simp)
      · rename_i m3 h3
        split at h
        · exact absurd h (by simp)
        · rename_i ig hig
          split at h
          · exact absurd h (by simp)
          · rename_i mg hmg
            split at h
            · exact absurd h (by simp)
            · rename_i sg hsg
              simp only [] at h
              split at h
              · exact absurd h (by simp)
              · rename_i m4 h4
                simp only [Prod.mk.injEq, Except.ok.injEq] at h
                obtain ⟨hm', hc⟩ := h
                subst hm'
                subst hc
                exact ⟨m1, m2, m3, m4, ig, mg, sg, h1, h2, h3, hig, hmg,
                  hsg, rfl, h4, rfl⟩

theorem charge_op_oog {m m' : MoveOSGasMeter} {n p q s d : Nat}
    (h : m.charge_op n p q s d = (m', .error .OUT_OF_GAS)) :
    ∃ m1 m2 m3 ig mg sg,
      m.push_stack p = (m1, .ok ()) ∧
      m1.increase_instruction_count n = (m2, .ok ()) ∧
      m2.increase_stack_size s = (m3, .ok ()) ∧
      checked_mul m3.instructions_current_tier_mult n = some ig ∧
      checked_mul m3.stack_size_current_tier_mult s = some mg ∧
      checked_mul m3.stack_height_current_tier_mult p = some sg ∧
      m3.deduct_gas ((GasCost.mk ig mg sg).total_internal) =
        (m', .error .OUT_OF_GAS) := by
  unfold charge_op at h
  split at h
  · rename_i m1 e h1
    obtain ⟨he, _, _⟩ := MoveOSGasMeter.push_stack_error h1
    simp only [Prod.mk.injEq, Except.error.injEq] at h
    rw [he] at h
    exact absurd h.2 (by simp)
  · rename_i m1 h1
    split at h
    · rename_i m2 e h2
      obtain ⟨he, _, _⟩ := MoveOSGasMeter.increase_instruction_count_error h2
      simp only [Prod.mk.injEq, Except.error.injEq] at h
      rw [he] at h
      exact absurd h.2 (by simp)
    · rename_i m2 h2
      split at h
      · rename_i m3 e h3
        obtain ⟨he, _, _⟩ := MoveOSGasMeter.increase_stack_size_error h3
        simp only [Prod.mk.injEq, Except.error.injEq] at h
        rw [he] at h
        exact absurd h.2 (by simp)
      · rename_i m3 h3
        split at h
        · exact absurd h (by simp)
        · rename_i ig hig
          split at h
          · exact absurd h (by simp)
          · rename_i mg hmg
            split at h
            · exact absurd h (by simp)
            · rename_i sg hsg
              simp only [] at h
              split at h
              · rename_i m4 e h4
                simp only [Prod.mk.injEq, Except.error.injEq] at h
                obtain ⟨hm', he⟩ := h
                subst hm'
                subst he
                exact ⟨m1, m2, m3, ig, mg, sg, h1, h2, h3, hig, hmg, hsg, h4⟩
              · exact absurd h (by simp)

theorem deduct_gas_frame (m : MoveOSGasMeter) (a : Nat) :
    (m.deduct_gas a).1.execution_gas_used = m.execution_gas_used ∧
    (m.deduct_gas a).1.storage_gas_used = m.storage_gas_used ∧
    (m.deduct_gas a).1.cost_table = m.cost_table ∧
    (m.deduct_gas a).1.charge = m.charge := by
  unfold deduct_gas
  split
  · simp
  · split <;> simp

/-- `charge` never touches the classification accumulators, the table or the
metering flag, and with metering disabled it never touches `gas_left`
(on any path, error paths included). -/
theorem charge_op_frame (m : MoveOSGasMeter) (n p q s d : Nat) :
    (m.charge_op n p q s d).1.storage_gas_used = m.storage_gas_used ∧
    (m.charge_op n p q s d).1.execution_gas_used = m.execution_gas_used ∧
    (m.charge_op n p q s d).1.cost_table = m.cost_table ∧
    (m.charge_op n p q s d).1.charge = m.charge ∧
    (m.charge = false → (m.charge_op n p q s d).1.gas_left = m.gas_left) := by
  unfold charge_op
  split
  · rename_i m1 e h1
    obtain ⟨_, e1, _⟩ := push_stack_error h1
    subst e1
    simp
  · rename_i m1 h1
    obtain ⟨e1, _⟩ := push_stack_ok h1
    split
    · rename_i m2 e h2
      obtain ⟨_, e2, _⟩ := increase_instruction_count_error h2
      subst e2; subst e1
      simp
    · rename_i m2 h2
      obtain ⟨e2, _⟩ := increase_instruction_count_ok h2
      split
      · rename_i m3 e h3
        obtain ⟨_, e3, _⟩ := increase_stack_size_error h3
        subst e3; subst e2; subst e1
        simp
      · rename_i m3 h3
        obtain ⟨e3, _⟩ := increase_stack_size_ok h3
        split
        · subst e3; subst e2; subst e1; simp
        · rename_i ig hig
          split
          · subst e3; subst e2; subst e1; simp
          · rename_i mg hmg
            split
            · subst e3; subst e2; subst e1; simp
            · rename_i sg hsg
              simp only []
              split
              · rename_i m4 e h4
                obtain ⟨_, e4, hch, _⟩ := deduct_gas_error h4
                subst e4; subst e3; subst e2; subst e1
                simp_all
              · rename_i m4 h4
                rcases deduct_gas_ok h4 with ⟨hch, e4⟩ | ⟨hch, hle, e4⟩ <;>
                  subst e4 <;> subst e3 <;> subst e2 <;> subst e1 <;>
                  simp_all [pop_stack]

end MoveOSGasMeter

theorem ite_gt_max (a b : Nat) : (if b > a then b else a) = max a b := by
  split <;> omega

/-! ### Claims -/

/-- **C9**: in `initial_cost_schedule`, the duplicate key `11500` of
`stack_size_tiers` resolves to the second insert, `11500 → 50`;
`stack_size_tier 11500` returns multiplier `50` with next breakpoint
`20000`; and no stack-size tier maps to multiplier `29`. -/
theorem C9_thm :
    btGet initial_cost_schedule.stack_size_tiers 11500 = some 50 ∧
    initial_cost_schedule.stack_size_tier 11500 = (50, some 20000) ∧
    ∀ kv ∈ initial_cost_schedule.stack_size_tiers, kv.2 ≠ 29 := by decide

/-- **C1** fails as stated: this out-of-gas charge (cost 3 against budget 2)
mutates the stack-height counter from 0 to 1, so the claim that all state
other than `gas_left` is unchanged is false. -/
theorem C1_counterexample :
    ((MoveOSGasMeter.new initial_cost_schedule 2).charge_op 1 1 0 1 0).2 =
      .error .OUT_OF_GAS ∧
    ((MoveOSGasMeter.new initial_cost_schedule 2).charge_op 1 1 0 1
      0).1.stack_height_current = 1 ∧
    (MoveOSGasMeter.new initial_cost_schedule 2).stack_height_current = 0 := by
  decide

/-- **C1** (amended): for a metering-enabled meter, a charge that fails with
out-of-gas sets `gas_left` to 0 (not a stale value) and leaves the
classification accumulators unchanged; the three counters, however, already
reflect the attempted push/instruction/size phases of that invocation
(and the pop phase is not applied). -/
theorem C1_thm (m m' : MoveOSGasMeter) (n p q s d : Nat)
    (hc : m.charge = true)
    (h : m.charge_op n p q s d = (m', .error .OUT_OF_GAS)) :
    m'.gas_left = 0 ∧
    m'.execution_gas_used = m.execution_gas_used ∧
    m'.storage_gas_used = m.storage_gas_used ∧
    m'.instructions_executed = m.instructions_executed + n ∧
    m'.stack_height_current = m.stack_height_current + p ∧
    m'.stack_size_current = m.stack_size_current + s ∧
    m'.stack_height_high_water_mark =
      max m.stack_height_high_water_mark (m.stack_height_current + p) ∧
    m'.stack_size_high_water_mark =
      max m.stack_size_high_water_mark (m.stack_size_current + s) ∧
    (m'.instructions_current_tier_mult, m'.instructions_next_tier_start) =
      MoveOSGasMeter.tier_requery m.cost_table.instruction_tiers
        INSTRUCTION_TIER_DEFAULT m.instructions_current_tier_mult
        m.instructions_next_tier_start (m.instructions_executed + n) ∧
    (m'.stack_height_current_tier_mult, m'.stack_height_next_tier_start) =
      MoveOSGasMeter.tier_requery m.cost_table.stack_height_tiers
        STACK_HEIGHT_TIER_DEFAULT m.stack_height_current_tier_mult
        m.stack_height_next_tier_start (m.stack_height_current + p) ∧
    (m'.stack_size_current_tier_mult, m'.stack_size_next_tier_start) =
      MoveOSGasMeter.tier_requery m.cost_table.stack_size_tiers
        STACK_SIZE_TIER_DEFAULT m.stack_size_current_tier_mult
        m.stack_size_next_tier_start (m.stack_size_current + s) := by
  obtain ⟨m1, m2, m3, ig, mg, sg, h1, h2, h3, _, _, _, h4⟩ :=
    MoveOSGasMeter.charge_op_oog h
  obtain ⟨e1, _⟩ := MoveOSGasMeter.push_stack_ok h1
  obtain ⟨e2, _⟩ := MoveOSGasMeter.increase_instruction_count_ok h2
  obtain ⟨e3, _⟩ := MoveOSGasMeter.increase_stack_size_ok h3
  obtain ⟨_, e4, _, _⟩ := MoveOSGasMeter.deduct_gas_error h4
  subst e4; subst e3; subst e2; subst e1
  simp [ite_gt_max]

/-- Witness for `C1_thm` at the concrete counterexample input. -/
theorem C1_witness :
    (MoveOSGasMeter.new initial_cost_schedule 2).charge = true ∧
    (((MoveOSGasMeter.new initial_cost_schedule 2).charge_op 1 1 0 1
        0).1.gas_left = 0 ∧
      ((MoveOSGasMeter.new initial_cost_schedule 2).charge_op 1 1 0 1
        0).1.execution_gas_used =
        (MoveOSGasMeter.new initial_cost_schedule 2).execution_gas_used ∧
      ((MoveOSGasMeter.new initial_cost_schedule 2).charge_op 1 1 0 1
        0).1.storage_gas_used =
        (MoveOSGasMeter.new initial_cost_schedule 2).storage_gas_used ∧
      ((MoveOSGasMeter.new initial_cost_schedule 2).charge_op 1 1 0 1
        0).1.instructions_executed =
        (MoveOSGasMeter.new initial_cost_schedule 2).instructions_executed + 1 ∧
      ((MoveOSGasMeter.new initial_cost_schedule 2).charge_op 1 1 0 1
        0).1.stack_height_current =
        (MoveOSGasMeter.new initial_cost_schedule 2).stack_height_current + 1 ∧
      ((MoveOSGasMeter.new initial_cost_schedule 2).charge_op 1 1 0 1
        0).1.stack_size_current =
        (MoveOSGasMeter.new initial_cost_schedule 2).stack_size_current + 1 ∧
      ((MoveOSGasMeter.new initial_cost_schedule 2).charge_op 1 1 0 1
        0).1.stack_height_high_water_mark =
        max (MoveOSGasMeter.new initial_cost_schedule
            2).stack_height_high_water_mark
          ((MoveOSGasMeter.new initial_cost_schedule 2).stack_height_current +
            1) ∧
      ((MoveOSGasMeter.new initial_cost_schedule 2).charge_op 1 1 0 1
        0).1.stack_size_high_water_mark =
        max (MoveOSGasMeter.new initial_cost_schedule
            2).stack_size_high_water_mark
          ((MoveOSGasMeter.new initial_cost_schedule 2).stack_size_current +
            1) ∧
      (((MoveOSGasMeter.new initial_cost_schedule 2).charge_op 1 1 0 1
          0).1.instructions_current_tier_mult,
        ((MoveOSGasMeter.new initial_cost_schedule 2).charge_op 1 1 0 1
          0).1.instructions_next_tier_start) =
        MoveOSGasMeter.tier_requery
          (MoveOSGasMeter.new initial_cost_schedule
            2).cost_table.instruction_tiers
          INSTRUCTION_TIER_DEFAULT
          (MoveOSGasMeter.new initial_cost_schedule
            2).instructions_current_tier_mult
          (MoveOSGasMeter.new initial_cost_schedule
            2).instructions_next_tier_start
          ((MoveOSGasMeter.new initial_cost_schedule 2).instructions_executed +
            1) ∧
      (((MoveOSGasMeter.new initial_cost_schedule 2).charge_op 1 1 0 1
          0).1.stack_height_current_tier_mult,
        ((MoveOSGasMeter.new initial_cost_schedule 2).charge_op 1 1 0 1
          0).1.stack_height_next_tier_start) =
        MoveOSGasMeter.tier_requery
          (MoveOSGasMeter.new initial_cost_schedule
            2).cost_table.stack_height_tiers
          STACK_HEIGHT_TIER_DEFAULT
          (MoveOSGasMeter.new initial_cost_schedule
            2).stack_height_current_tier_mult
          (MoveOSGasMeter.new initial_cost_schedule
            2).stack_height_next_tier_start
          ((MoveOSGasMeter.new initial_cost_schedule 2).stack_height_current +
            1) ∧
      (((MoveOSGasMeter.new initial_cost_schedule 2).charge_op 1 1 0 1
          0).1.stack_size_current_tier_mult,
        ((MoveOSGasMeter.new initial_cost_schedule 2).charge_op 1 1 0 1
          0).1.stack_size_next_tier_start) =
        MoveOSGasMeter.tier_requery
          (MoveOSGasMeter.new initial_cost_schedule
            2).cost_table.stack_size_tiers
          STACK_SIZE_TIER_DEFAULT
          (MoveOSGasMeter.new initial_cost_schedule
            2).stack_size_current_tier_mult
          (MoveOSGasMeter.new initial_cost_schedule
            2).stack_size_next_tier_start
          ((MoveOSGasMeter.new initial_cost_schedule 2).stack_size_current +
            1)) :=
  ⟨rfl,
    C1_thm (MoveOSGasMeter.new initial_cost_schedule 2)
      ((MoveOSGasMeter.new initial_cost_schedule 2).charge_op 1 1 0 1 0).1
      1 1 0 1 0 rfl (by decide)⟩

/-- **C8** fails as stated: `charge_native_function` (the post-execution
phase of a native call) invokes the charge engine, which returns cost 9
here, but it never adds that cost to `execution_gas_used`, which stays 0. -/
theorem C8_counterexample :
    ((MoveOSGasMeter.new initial_cost_schedule 1000).charge_op 0 1 0 8 0).2 =
      .ok 9 ∧
    ((MoveOSGasMeter.new initial_cost_schedule 1000).charge_native_function
      0 1 8).2 = .ok () ∧
    ((MoveOSGasMeter.new initial_cost_schedule 1000).charge_native_function
      0 1 8).1.execution_gas_used = 0 := by decide

/-- **C8** (amended): every façade method that routes through
`charge_internal_execution` (which includes the native pre-execution phase)
adds the engine's returned cost to `execution_gas_used` (with wrapping `u64`
addition) on success; but `charge_native_function`, the native
post-execution phase, calls the engine and `deduct_gas` directly and never
updates `execution_gas_used`. -/
theorem C8_thm :
    (∀ (m m' : MoveOSGasMeter) (n p q s d c : Nat),
        m.charge_op n p q s d = (m', .ok c) →
        m.charge_internal_execution n p q s d =
          (m'.charge_execution c, .ok ()) ∧
        (m'.charge_execution c).execution_gas_used =
          wrapping_add m.execution_gas_used c) ∧
    (∀ (m : MoveOSGasMeter) (amount pushes size_increase : Nat),
        (m.charge_native_function amount pushes
          size_increase).1.execution_gas_used = m.execution_gas_used) := by
  constructor
  · intro m m' n p q s d c h
    constructor
    · unfold MoveOSGasMeter.charge_internal_execution
      rw [h]
    · have hfr := (MoveOSGasMeter.charge_op_frame m n p q s d).2.1
      rw [h] at hfr
      simp only [] at hfr
      simp [MoveOSGasMeter.charge_execution, hfr]
  · intro m amount pushes size_increase
    unfold MoveOSGasMeter.charge_native_function
    have hfr := (MoveOSGasMeter.charge_op_frame m 0 pushes 0 size_increase 0).2.1
    cases hco : m.charge_op 0 pushes 0 size_increase 0 with
    | mk m1 r =>
      rw [hco] at hfr
      cases r with
      | error e => simpa using hfr
      | ok c =>
        have hd := (MoveOSGasMeter.deduct_gas_frame m1 amount).1
        simpa [hd] using hfr

/-- Witness for `C8_thm` at a concrete input: a successful
`charge_internal_execution` of `(1, 1, 0, 8, 0)` on a fresh meter adds the
engine cost 10 to `execution_gas_used`. -/
theorem C8_witness :
    (MoveOSGasMeter.new initial_cost_schedule 10000000).charge_internal_execution
        1 1 0 8 0 =
      ((((MoveOSGasMeter.new initial_cost_schedule 10000000).charge_op 1 1 0 8
        0).1).charge_execution 10, .ok ()) ∧
    ((((MoveOSGasMeter.new initial_cost_schedule 10000000).charge_op 1 1 0 8
        0).1).charge_execution 10).execution_gas_used =
      wrapping_add
        (MoveOSGasMeter.new initial_cost_schedule 10000000).execution_gas_used
        10 :=
  C8_thm.1 (MoveOSGasMeter.new initial_cost_schedule 10000000)
    ((MoveOSGasMeter.new initial_cost_schedule 10000000).charge_op 1 1 0 8 0).1
    1 1 0 8 0 10 (by decide)

/-- **C2** fails as stated: a successful charge whose two checked products
are each near `u64::MAX` returns the wrapped total `18446744073709551584`,
not the mathematical sum `mult_instr * instr + mult_size * size_in +
mult_height * pushes = 36893488147419103200` (the final summation uses
plain `u64` addition, which wraps). -/
theorem C2_counterexample :
    ((MoveOSGasMeter.new initial_cost_schedule U64_MAX).charge_op
      184467440737095516 0 0 184467440737095516 0).2 =
      .ok 18446744073709551584 ∧
    ((MoveOSGasMeter.new initial_cost_schedule U64_MAX).charge_op
      184467440737095516 0 0 184467440737095516
      0).1.instructions_current_tier_mult = 100 ∧
    ((MoveOSGasMeter.new initial_cost_schedule U64_MAX).charge_op
      184467440737095516 0 0 184467440737095516
      0).1.stack_size_current_tier_mult = 100 ∧
    ((MoveOSGasMeter.new initial_cost_schedule U64_MAX).charge_op
      184467440737095516 0 0 184467440737095516
      0).1.stack_height_current_tier_mult = 1 ∧
    (18446744073709551584 : Nat) ≠
      100 * 184467440737095516 + 100 * 184467440737095516 + 1 * 0 := by
  decide

/-- **C2** (amended): every non-failing `charge(instr, pushes, pops,
size_in, size_out)` computes and deducts
`(mult_instr * instr + mult_size * size_in + mult_height * pushes) mod
2 ^ 64`, where each multiplier is the cached one after the corresponding
counter was updated by this call (the three individual products are
overflow-checked, but the final sum wraps); when metering is on the cost is
subtracted from `gas_left`, and when metering is off `gas_left` is
untouched. -/
theorem C2_thm (m m' : MoveOSGasMeter) (n p q s d c : Nat)
    (h : m.charge_op n p q s d = (m', .ok c)) :
    c = (m'.instructions_current_tier_mult * n +
          m'.stack_size_current_tier_mult * s +
          m'.stack_height_current_tier_mult * p) % U64_MOD ∧
    m'.instructions_current_tier_mult * n ≤ U64_MAX ∧
    m'.stack_size_current_tier_mult * s ≤ U64_MAX ∧
    m'.stack_height_current_tier_mult * p ≤ U64_MAX ∧
    (m.charge = true → c ≤ m.gas_left ∧ m'.gas_left = m.gas_left - c) ∧
    (m.charge = false → m'.gas_left = m.gas_left) := by
  obtain ⟨m1, m2, m3, m4, ig, mg, sg, h1, h2, h3, hig, hmg, hsg, hcost, h4,
    hm'⟩ := MoveOSGasMeter.charge_op_ok h
  obtain ⟨e1, _⟩ := MoveOSGasMeter.push_stack_ok h1
  obtain ⟨e2, _⟩ := MoveOSGasMeter.increase_instruction_count_ok h2
  obtain ⟨e3, _⟩ := MoveOSGasMeter.increase_stack_size_ok h3
  obtain ⟨higv, higle⟩ := checked_mul_some hig
  obtain ⟨hmgv, hmgle⟩ := checked_mul_some hmg
  obtain ⟨hsgv, hsgle⟩ := checked_mul_some hsg
  subst hm'; subst hcost; subst higv; subst hmgv; subst hsgv
  rcases MoveOSGasMeter.deduct_gas_ok h4 with ⟨hch, e4⟩ | ⟨hch, hle, e4⟩ <;>
    subst e4 <;> subst e3 <;> subst e2 <;> subst e1 <;>
    simp_all [MoveOSGasMeter.pop_stack, GasCost.total_internal, wrapping_add,
      Nat.mod_add_mod, Nat.add_mod_mod]

/-- Witness for `C2_thm`: on a fresh meter with the initial schedule, the
charge `(1, 1, 0, 8, 0)` costs `(1*1 + 1*8 + 1*1) mod 2^64 = 10` and is
deducted from the budget. -/
theorem C2_witness :
    (10 : Nat) =
      (((MoveOSGasMeter.new initial_cost_schedule 10000000).charge_op 1 1 0 8
          0).1.instructions_current_tier_mult * 1 +
        ((MoveOSGasMeter.new initial_cost_schedule 10000000).charge_op 1 1 0 8
          0).1.stack_size_current_tier_mult * 8 +
        ((MoveOSGasMeter.new initial_cost_schedule 10000000).charge_op 1 1 0 8
          0).1.stack_height_current_tier_mult * 1) % U64_MOD ∧
    ((MoveOSGasMeter.new initial_cost_schedule 10000000).charge_op 1 1 0 8
      0).1.instructions_current_tier_mult * 1 ≤ U64_MAX ∧
    ((MoveOSGasMeter.new initial_cost_schedule 10000000).charge_op 1 1 0 8
      0).1.stack_size_current_tier_mult * 8 ≤ U64_MAX ∧
    ((MoveOSGasMeter.new initial_cost_schedule 10000000).charge_op 1 1 0 8
      0).1.stack_height_current_tier_mult * 1 ≤ U64_MAX ∧
    ((MoveOSGasMeter.new initial_cost_schedule 10000000).charge = true →
      (10 : Nat) ≤ (MoveOSGasMeter.new initial_cost_schedule 10000000).gas_left ∧
      ((MoveOSGasMeter.new initial_cost_schedule 10000000).charge_op 1 1 0 8
        0).1.gas_left =
        (MoveOSGasMeter.new initial_cost_schedule 10000000).gas_left - 10) ∧
    ((MoveOSGasMeter.new initial_cost_schedule 10000000).charge = false →
      ((MoveOSGasMeter.new initial_cost_schedule 10000000).charge_op 1 1 0 8
        0).1.gas_left =
        (MoveOSGasMeter.new initial_cost_schedule 10000000).gas_left) :=
  C2_thm (MoveOSGasMeter.new initial_cost_schedule 10000000)
    ((MoveOSGasMeter.new initial_cost_schedule 10000000).charge_op 1 1 0 8 0).1
    1 1 0 8 0 10 (by decide)

/-- **C5** fails as stated: (a) on a metering-enabled meter over the zero
schedule a `u64::MAX` instruction delta charges successfully with cost 0
(the multiplier is 0, so nothing overflows), instead of returning an
arithmetic error; (b) the summation into the total is not overflow-checked:
a successful charge returns `18446744073709551584`, strictly less than the
sum `100*184467440737095516 + 100*184467440737095516` of its two checked
products — the sum silently wrapped modulo `2 ^ 64`. -/
theorem C5_counterexample :
    ((MoveOSGasMeter.new zero_cost_schedule 10).charge_op U64_MAX 0 0 0 0).2 =
      .ok 0 ∧
    ((MoveOSGasMeter.new zero_cost_schedule 10).charge_op U64_MAX 0 0 0
      0).1.gas_left = 10 ∧
    ((MoveOSGasMeter.new initial_cost_schedule U64_MAX).charge_op
      184467440737095516 0 0 184467440737095516 0).2 =
      .ok 18446744073709551584 ∧
    (18446744073709551584 : Nat) <
      100 * 184467440737095516 + 100 * 184467440737095516 := by decide

/-! ### Twin-state lemmas: the counter phases read neither `charge` nor
`gas_left`, so they commute with overriding those two fields. -/

/-- Override the metering flag and the remaining budget of a meter. -/
def withCG (m : MoveOSGasMeter) (b : Bool) (g : Nat) : MoveOSGasMeter :=
  { m with charge := b, gas_left := g }

namespace MoveOSGasMeter

theorem push_stack_twin (m : MoveOSGasMeter) (b : Bool) (g p : Nat) :
    (withCG m b g).push_stack p =
      (withCG (m.push_stack p).1 b g, (m.push_stack p).2) := by
  unfold push_stack withCG
  cases h : checked_add m.stack_height_current p <;> simp [h]

theorem increase_instruction_count_twin (m : MoveOSGasMeter) (b : Bool)
    (g n : Nat) :
    (withCG m b g).increase_instruction_count n =
      (withCG (m.increase_instruction_count n).1 b g,
        (m.increase_instruction_count n).2) := by
  unfold increase_instruction_count withCG
  cases h : checked_add m.instructions_executed n <;> simp [h]

theorem increase_stack_size_twin (m : MoveOSGasMeter) (b : Bool) (g s : Nat) :
    (withCG m b g).increase_stack_size s =
      (withCG (m.increase_stack_size s).1 b g,
        (m.increase_stack_size s).2) := by
  unfold increase_stack_size withCG
  cases h : checked_add m.stack_size_current s <;> simp [h]

theorem pop_stack_twin (m : MoveOSGasMeter) (b : Bool) (g q : Nat) :
    (withCG m b g).pop_stack q = withCG (m.pop_stack q) b g := by
  unfold pop_stack withCG
  rfl

/-- An `ARITHMETIC_ERROR` in `charge` arises before `deduct_gas` runs, so
it is insensitive to the metering flag and the budget: overriding them
yields the same error with the same counter state (modulo the override). -/
theorem charge_op_arith_twin (m : MoveOSGasMeter) (b : Bool)
    (g n p q s d : Nat)
    (h : (m.charge_op n p q s d).2 = .error .ARITHMETIC_ERROR) :
    (withCG m b g).charge_op n p q s d =
      (withCG (m.charge_op n p q s d).1 b g, .error .ARITHMETIC_ERROR) := by
  unfold charge_op push_stack increase_instruction_count increase_stack_size
    at h ⊢
  simp only [withCG]
  cases hA : checked_add m.stack_height_current p with
  | none => simp only [hA] at h ⊢
  | some nh =>
    simp only [hA] at h ⊢
    cases hB : checked_add m.instructions_executed n with
    | none => simp only [hB] at h ⊢
    | some ni =>
      simp only [hB] at h ⊢
      cases hC : checked_add m.stack_size_current s with
      | none => simp only [hC] at h ⊢
      | some ns =>
        simp only [hC] at h ⊢
        cases hI : checked_mul
            (tier_requery m.cost_table.instruction_tiers
              INSTRUCTION_TIER_DEFAULT m.instructions_current_tier_mult
              m.instructions_next_tier_start ni).1 n with
        | none => simp only [hI] at h ⊢
        | some ig =>
          simp only [hI] at h ⊢
          cases hM : checked_mul
              (tier_requery m.cost_table.stack_size_tiers
                STACK_SIZE_TIER_DEFAULT m.stack_size_current_tier_mult
                m.stack_size_next_tier_start ns).1 s with
          | none => simp only [hM] at h ⊢
          | some mg =>
            simp only [hM] at h ⊢
            cases hS : checked_mul
                (tier_requery m.cost_table.stack_height_tiers
                  STACK_HEIGHT_TIER_DEFAULT m.stack_height_current_tier_mult
                  m.stack_height_next_tier_start nh).1 p with
            | none => simp only [hS] at h ⊢
            | some sg =>
              simp only [hS] at h
              exfalso
              split at h
              · rename_i m4 e h4
                obtain ⟨he, _, _, _⟩ := deduct_gas_error h4
                subst he
                simp at h
              · simp at h

end MoveOSGasMeter

/-- **C5** (amended): counter updates and the three per-dimension
multiplications are overflow-checked.  On a freshly constructed meter over
`initial_cost_schedule` (all multipliers positive), a `u64::MAX` delta in
any single dimension — instructions, pushes, or `size_in` — makes the
corresponding checked multiplication overflow, so the charge returns
`ARITHMETIC_ERROR` and `gas_left` is not mutated, whatever the budget.
(The final summation of the three products, by contrast, wraps: see
`C5_counterexample`.) -/
theorem C5_thm (budget : Nat) :
    (((MoveOSGasMeter.new initial_cost_schedule budget).charge_op U64_MAX 0 0
        0 0).2 = .error .ARITHMETIC_ERROR ∧
      ((MoveOSGasMeter.new initial_cost_schedule budget).charge_op U64_MAX 0 0
        0 0).1.gas_left = budget) ∧
    (((MoveOSGasMeter.new initial_cost_schedule budget).charge_op 0 U64_MAX 0
        0 0).2 = .error .ARITHMETIC_ERROR ∧
      ((MoveOSGasMeter.new initial_cost_schedule budget).charge_op 0 U64_MAX 0
        0 0).1.gas_left = budget) ∧
    (((MoveOSGasMeter.new initial_cost_schedule budget).charge_op 0 0 0
        U64_MAX 0).2 = .error .ARITHMETIC_ERROR ∧
      ((MoveOSGasMeter.new initial_cost_schedule budget).charge_op 0 0 0
        U64_MAX 0).1.gas_left = budget) := by
  have hnew : MoveOSGasMeter.new initial_cost_schedule budget =
      withCG (MoveOSGasMeter.new initial_cost_schedule 0) true budget := by
    unfold MoveOSGasMeter.new withCG
    rfl
  rw [hnew]
  rw [MoveOSGasMeter.charge_op_arith_twin _ true budget U64_MAX 0 0 0 0
    (by decide)]
  rw [MoveOSGasMeter.charge_op_arith_twin _ true budget 0 U64_MAX 0 0 0
    (by decide)]
  rw [MoveOSGasMeter.charge_op_arith_twin _ true budget 0 0 0 U64_MAX 0
    (by decide)]
  exact ⟨⟨rfl, rfl⟩, ⟨rfl, rfl⟩, ⟨rfl, rfl⟩⟩

/-- One public operation of the meter: engine charges, façade charges,
classifier calls, and metering toggles. -/
inductive MeterOp where
  | opCharge (n p q s d : Nat)
  | opChargeInternalExecution (n p q s d : Nat)
  | opChargeNativeFunction (amount pushes size_increase : Nat)
  | opChargeNativeBeforeExecution (pops srs : Nat)
  | opChargeExecution (c : Nat)
  | opChargeIoWrite
  | opChargeChangeSet
  | opSetMetering (b : Bool)
  | opStartMetering
  | opStopMetering
  | opDeductGas (amount : Nat)
deriving DecidableEq, Repr

/-- Apply one meter operation; failures keep the state reached so far. -/
def applyOp (m : MoveOSGasMeter) : MeterOp → MoveOSGasMeter
  | .opCharge n p q s d => (m.charge_op n p q s d).1
  | .opChargeInternalExecution n p q s d =>
    (m.charge_internal_execution n p q s d).1
  | .opChargeNativeFunction amount pushes size_increase =>
    (m.charge_native_function amount pushes size_increase).1
  | .opChargeNativeBeforeExecution pops srs =>
    (m.charge_native_function_before_execution pops srs).1
  | .opChargeExecution c => m.charge_execution c
  | .opChargeIoWrite => m.charge_io_write
  | .opChargeChangeSet => m.charge_change_set
  | .opSetMetering b => m.set_metering b
  | .opStartMetering => m.start_metering
  | .opStopMetering => m.stop_metering
  | .opDeductGas amount => (m.deduct_gas amount).1

/-- Apply a sequence of meter operations. -/
def applyOps (m : MoveOSGasMeter) (ops : List MeterOp) : MoveOSGasMeter :=
  ops.foldl applyOp m

theorem applyOp_storage (m : MoveOSGasMeter) (o : MeterOp) :
    (applyOp m o).storage_gas_used = m.storage_gas_used := by
  cases o with
  | opCharge n p q s d =>
    simp only [applyOp]
    exact (MoveOSGasMeter.charge_op_frame m n p q s d).1
  | opChargeInternalExecution n p q s d =>
    simp only [applyOp, MoveOSGasMeter.charge_internal_execution]
    have hfr := (MoveOSGasMeter.charge_op_frame m n p q s d).1
    cases hco : m.charge_op n p q s d with
    | mk m1 r =>
      rw [hco] at hfr
      simp only [] at hfr
      cases r with
      | ok c => simpa [MoveOSGasMeter.charge_execution] using hfr
      | error e => simpa using hfr
  | opChargeNativeFunction amount pushes size_increase =>
    simp only [applyOp, MoveOSGasMeter.charge_native_function]
    have hfr := (MoveOSGasMeter.charge_op_frame m 0 pushes 0 size_increase 0).1
    cases hco : m.charge_op 0 pushes 0 size_increase 0 with
    | mk m1 r =>
      rw [hco] at hfr
      simp only [] at hfr
      cases r with
      | ok c =>
        have hd := (MoveOSGasMeter.deduct_gas_frame m1 amount).2.1
        simpa [hd] using hfr
      | error e => simpa using hfr
  | opChargeNativeBeforeExecution pops srs =>
    simp only [applyOp,
      MoveOSGasMeter.charge_native_function_before_execution,
      MoveOSGasMeter.charge_internal_execution]
    have hfr := (MoveOSGasMeter.charge_op_frame m 1 0 pops 0 srs).1
    cases hco : m.charge_op 1 0 pops 0 srs with
    | mk m1 r =>
      rw [hco] at hfr
      simp only [] at hfr
      cases r with
      | ok c => simpa [MoveOSGasMeter.charge_execution] using hfr
      | error e => simpa using hfr
  | opChargeExecution c => rfl
  | opChargeIoWrite => rfl
  | opChargeChangeSet => rfl
  | opSetMetering b => rfl
  | opStartMetering => rfl
  | opStopMetering => rfl
  | opDeductGas amount =>
    simp only [applyOp]
    exact (MoveOSGasMeter.deduct_gas_frame m amount).2.1

theorem applyOps_storage (ops : List MeterOp) :
    ∀ m : MoveOSGasMeter,
      (applyOps m ops).storage_gas_used = m.storage_gas_used := by
  induction ops with
  | nil => intro m; rfl
  | cons o rest ih =>
    intro m
    calc (applyOps (applyOp m o) rest).storage_gas_used
        = (applyOp m o).storage_gas_used := ih (applyOp m o)
      _ = m.storage_gas_used := applyOp_storage m o

/-- **C10**: no meter operation (engine or façade charge, classifier call,
metering toggle, or direct deduction) ever writes `storage_gas_used`, so
for meters built by `new` or `new_unmetered` the gas statement always
reports `storage_gas_used = 0` after any operation sequence. -/
theorem C10_thm (ct : CostTable) (budget : Nat) (ops : List MeterOp) :
    (applyOps (MoveOSGasMeter.new ct budget) ops).gas_statement.storage_gas_used
      = 0 ∧
    (applyOps MoveOSGasMeter.new_unmetered ops).gas_statement.storage_gas_used
      = 0 := by
  constructor
  · rw [show (applyOps (MoveOSGasMeter.new ct budget)
        ops).gas_statement.storage_gas_used =
        (applyOps (MoveOSGasMeter.new ct budget) ops).storage_gas_used from
        rfl]
    rw [applyOps_storage]
    rfl
  · rw [show (applyOps MoveOSGasMeter.new_unmetered
        ops).gas_statement.storage_gas_used =
        (applyOps MoveOSGasMeter.new_unmetered ops).storage_gas_used from rfl]
    rw [applyOps_storage]
    rfl

/-! ### Counter evolution across charge sequences (C6) -/

/-- The stack-height counter as the spec describes it: per step, add the
pushes, then subtract the pops (saturating). -/
def specHeight (h : Nat) : List ChargeArgs → Nat
  | [] => h
  | a :: rest => specHeight ((h + a.pushes) - a.pops) rest

/-- The stack-size counter: per step, add the size-in.  (The code never
subtracts `decr_size`; see `C6_counterexample`.) -/
def specSize (sz : Nat) : List ChargeArgs → Nat
  | [] => sz
  | a :: rest => specSize (sz + a.incr_size) rest

/-- Running maximum of the stack-height counter, sampled after the push
phase of each step (which is when the code raises the mark). -/
def specHeightHWM (hwm h : Nat) : List ChargeArgs → Nat
  | [] => hwm
  | a :: rest =>
    specHeightHWM (max hwm (h + a.pushes)) ((h + a.pushes) - a.pops) rest

/-- Running maximum of the stack-size counter. -/
def specSizeHWM (hwm sz : Nat) : List ChargeArgs → Nat
  | [] => hwm
  | a :: rest => specSizeHWM (max hwm (sz + a.incr_size)) (sz + a.incr_size) rest

namespace MoveOSGasMeter

theorem charge_op_ok_counters {m m' : MoveOSGasMeter} {n p q s d c : Nat}
    (h : m.charge_op n p q s d = (m', .ok c)) :
    m'.stack_height_current = (m.stack_height_current + p) - q ∧
    m'.stack_size_current = m.stack_size_current + s ∧
    m'.instructions_executed = m.instructions_executed + n ∧
    m'.stack_height_high_water_mark =
      max m.stack_height_high_water_mark (m.stack_height_current + p) ∧
    m'.stack_size_high_water_mark =
      max m.stack_size_high_water_mark (m.stack_size_current + s) := by
  obtain ⟨m1, m2, m3, m4, ig, mg, sg, h1, h2, h3, _, _, _, _, h4, hm'⟩ :=
    charge_op_ok h
  obtain ⟨e1, _⟩ := push_stack_ok h1
  obtain ⟨e2, _⟩ := increase_instruction_count_ok h2
  obtain ⟨e3, _⟩ := increase_stack_size_ok h3
  subst hm'
  rcases deduct_gas_ok h4 with ⟨_, e4⟩ | ⟨_, _, e4⟩ <;>
    subst e4 <;> subst e3 <;> subst e2 <;> subst e1 <;>
    simp [pop_stack, ite_gt_max]

theorem runCharges_counters (seq : List ChargeArgs) :
    ∀ m m' : MoveOSGasMeter, runCharges m seq = (m', .ok ()) →
      m'.stack_height_current = specHeight m.stack_height_current seq ∧
      m'.stack_size_current = specSize m.stack_size_current seq ∧
      m'.stack_height_high_water_mark =
        specHeightHWM m.stack_height_high_water_mark m.stack_height_current
          seq ∧
      m'.stack_size_high_water_mark =
        specSizeHWM m.stack_size_high_water_mark m.stack_size_current seq := by
  induction seq with
  | nil =>
    intro m m' h
    simp only [runCharges, Prod.mk.injEq] at h
    rw [← h.1]
    exact ⟨rfl, rfl, rfl, rfl⟩
  | cons a rest ih =>
    intro m m' h
    simp only [runCharges] at h
    split at h
    · rename_i mstep c hstep
      obtain ⟨eh, es, _, ehw, esw⟩ := charge_op_ok_counters hstep
      obtain ⟨rh, rs, rhw, rsw⟩ := ih mstep m' h
      refine ⟨?_, ?_, ?_, ?_⟩
      · rw [rh, eh]; rfl
      · rw [rs, es]; rfl
      · rw [rhw, ehw, eh]; rfl
      · rw [rsw, esw, es]; rfl
    · simp at h

end MoveOSGasMeter

/-- **C6** fails as stated: a single non-failing charge with
`size_in = size_out = 5` leaves `stack_size_current = 5`, not
`5 - 5 = 0`: the code never subtracts `size_out` from the stack-size
counter (`decrease_stack_size` is commented out). -/
theorem C6_counterexample :
    (runCharges (MoveOSGasMeter.new initial_cost_schedule 100)
      [⟨0, 0, 0, 5, 5⟩]).2 = .ok () ∧
    (runCharges (MoveOSGasMeter.new initial_cost_schedule 100)
      [⟨0, 0, 0, 5, 5⟩]).1.stack_size_current = 5 ∧
    (5 : Nat) - 5 ≠ 5 := by decide

/-- **C6** (amended): across every non-failing sequence of charges from a
fresh meter, `stack_height_current` is the fold that adds each step's
pushes and saturating-subtracts its pops; `stack_size_current` is the sum
of the size-ins (size-outs are ignored, never subtracted); and each
high-water mark is the running maximum of its counter, sampled after the
push/grow phase of each step. -/
theorem C6_thm (ct : CostTable) (budget : Nat) (seq : List ChargeArgs)
    (m' : MoveOSGasMeter)
    (h : runCharges (MoveOSGasMeter.new ct budget) seq = (m', .ok ())) :
    m'.stack_height_current = specHeight 0 seq ∧
    m'.stack_size_current = specSize 0 seq ∧
    m'.stack_height_high_water_mark = specHeightHWM 0 0 seq ∧
    m'.stack_size_high_water_mark = specSizeHWM 0 0 seq :=
  MoveOSGasMeter.runCharges_counters seq _ m' h

/-- Witness for `C6_thm` on a concrete two-step sequence. -/
theorem C6_witness :
    (runCharges (MoveOSGasMeter.new initial_cost_schedule 1000)
      [⟨1, 2, 1, 8, 0⟩, ⟨0, 1, 0, 4, 0⟩]).1.stack_height_current =
      specHeight 0 [⟨1, 2, 1, 8, 0⟩, ⟨0, 1, 0, 4, 0⟩] ∧
    (runCharges (MoveOSGasMeter.new initial_cost_schedule 1000)
      [⟨1, 2, 1, 8, 0⟩, ⟨0, 1, 0, 4, 0⟩]).1.stack_size_current =
      specSize 0 [⟨1, 2, 1, 8, 0⟩, ⟨0, 1, 0, 4, 0⟩] ∧
    (runCharges (MoveOSGasMeter.new initial_cost_schedule 1000)
      [⟨1, 2, 1, 8, 0⟩, ⟨0, 1, 0, 4, 0⟩]).1.stack_height_high_water_mark =
      specHeightHWM 0 0 [⟨1, 2, 1, 8, 0⟩, ⟨0, 1, 0, 4, 0⟩] ∧
    (runCharges (MoveOSGasMeter.new initial_cost_schedule 1000)
      [⟨1, 2, 1, 8, 0⟩, ⟨0, 1, 0, 4, 0⟩]).1.stack_size_high_water_mark =
      specSizeHWM 0 0 [⟨1, 2, 1, 8, 0⟩, ⟨0, 1, 0, 4, 0⟩] :=
  C6_thm initial_cost_schedule 1000 [⟨1, 2, 1, 8, 0⟩, ⟨0, 1, 0, 4, 0⟩]
    (runCharges (MoveOSGasMeter.new initial_cost_schedule 1000)
      [⟨1, 2, 1, 8, 0⟩, ⟨0, 1, 0, 4, 0⟩]).1 (by decide)

/-! ### Metering flag vs. counter evolution (C7) -/

theorem withCG_collapse (m : MoveOSGasMeter) (b b' : Bool) (g g' : Nat) :
    withCG (withCG m b g) b' g' = withCG m b' g' := rfl

theorem withCG_eta {m : MoveOSGasMeter} {b : Bool} (h : m.charge = b) :
    withCG m b m.gas_left = m := by
  rw [← h]; rfl

namespace MoveOSGasMeter

/-- With metering off on the base meter, a successful metered twin run of
`charge` succeeds identically on the base meter: same cost, same counter
state; only `charge`/`gas_left` differ (the base keeps its own). -/
theorem charge_op_unmetered_twin (m mt : MoveOSGasMeter)
    (g n p q s d c : Nat) (hch : m.charge = false)
    (ht : (withCG m true g).charge_op n p q s d = (mt, .ok c)) :
    m.charge_op n p q s d = (withCG mt false m.gas_left, .ok c) := by
  unfold charge_op push_stack increase_instruction_count increase_stack_size
    at ht ⊢
  simp only [withCG] at ht
  cases hA : checked_add m.stack_height_current p with
  | none =>
    simp only [hA] at ht
    exact absurd ht (by simp)
  | some nh =>
    simp only [hA] at ht ⊢
    cases hB : checked_add m.instructions_executed n with
    | none =>
    simp only [hB] at ht
    exact absurd ht (by simp)
    | some ni =>
      simp only [hB] at ht ⊢
      cases hC : checked_add m.stack_size_current s with
      | none =>
    simp only [hC] at ht
    exact absurd ht (by simp)
      | some ns =>
        simp only [hC] at ht ⊢
        cases hI : checked_mul
            (tier_requery m.cost_table.instruction_tiers
              INSTRUCTION_TIER_DEFAULT m.instructions_current_tier_mult
              m.instructions_next_tier_start ni).1 n with
        | none =>
    simp only [hI] at ht
    exact absurd ht (by simp)
        | some ig =>
          simp only [hI] at ht ⊢
          cases hM : checked_mul
              (tier_requery m.cost_table.stack_size_tiers
                STACK_SIZE_TIER_DEFAULT m.stack_size_current_tier_mult
                m.stack_size_next_tier_start ns).1 s with
          | none =>
    simp only [hM] at ht
    exact absurd ht (by simp)
          | some mg =>
            simp only [hM] at ht ⊢
            cases hS : checked_mul
                (tier_requery m.cost_table.stack_height_tiers
                  STACK_HEIGHT_TIER_DEFAULT m.stack_height_current_tier_mult
                  m.stack_height_next_tier_start nh).1 p with
            | none =>
              simp only [hS] at ht
              exact absurd ht (by simp)
            | some sg =>
              simp only [hS] at ht ⊢
              unfold deduct_gas at ht ⊢
              simp only [hch] at ht ⊢
              simp only [Bool.not_false, Bool.not_true, if_true, if_false,
                Bool.false_eq_true, ite_false, ite_true] at ht ⊢
              cases hSub : checked_sub g
                  (GasCost.mk ig mg sg).total_internal with
              | none =>
                simp only [hSub] at ht
                exact absurd ht (by simp)
              | some gl =>
                simp only [hSub] at ht
                simp only [Prod.mk.injEq, Except.ok.injEq] at ht
                obtain ⟨hmt, hc⟩ := ht
                subst hmt; subst hc
                simp [withCG, pop_stack]

end MoveOSGasMeter

theorem runCharges_unmetered_gas (seq : List ChargeArgs) :
    ∀ m : MoveOSGasMeter, m.charge = false →
      (runCharges m seq).1.gas_left = m.gas_left ∧
      (runCharges m seq).1.charge = false := by
  induction seq with
  | nil => intro m hch; exact ⟨rfl, hch⟩
  | cons a rest ih =>
    intro m hch
    simp only [runCharges]
    have hfr := MoveOSGasMeter.charge_op_frame m a.num_instructions a.pushes
      a.pops a.incr_size a.decr_size
    cases hco : m.charge_op a.num_instructions a.pushes a.pops a.incr_size
        a.decr_size with
    | mk m1 r =>
      rw [hco] at hfr
      simp only [] at hfr
      obtain ⟨_, _, _, hfc, hfg⟩ := hfr
      cases r with
      | ok c =>
        obtain ⟨ih1, ih2⟩ := ih m1 (by rw [hfc]; exact hch)
        exact ⟨by rw [ih1]; exact hfg hch, ih2⟩
      | error e => exact ⟨hfg hch, by rw [hfc]; exact hch⟩

theorem runCharges_unmetered_twin (seq : List ChargeArgs) :
    ∀ (t : MoveOSGasMeter) (g0 : Nat), t.charge = true →
      ∀ mt : MoveOSGasMeter, runCharges t seq = (mt, .ok ()) →
        runCharges (withCG t false g0) seq = (withCG mt false g0, .ok ()) := by
  induction seq with
  | nil =>
    intro t g0 htc mt h
    simp only [runCharges, Prod.mk.injEq] at h ⊢
    exact ⟨by rw [h.1], trivial⟩
  | cons a rest ih =>
    intro t g0 htc mt h
    simp only [runCharges] at h ⊢
    split at h
    · rename_i t1 c hstep
      have ht1c : t1.charge = true := by
        have hfr := (MoveOSGasMeter.charge_op_frame t a.num_instructions
          a.pushes a.pops a.incr_size a.decr_size).2.2.2.1
        rw [hstep] at hfr
        simp only [] at hfr
        rw [hfr]; exact htc
      have hbase := MoveOSGasMeter.charge_op_unmetered_twin
        (withCG t false g0) t1 t.gas_left a.num_instructions a.pushes a.pops
        a.incr_size a.decr_size c rfl
        (by rw [withCG_collapse, withCG_eta htc]; exact hstep)
      rw [hbase]
      exact ih t1 g0 ht1c mt h
    · simp at h

/-- Agreement of everything except the metering flag and `gas_left`:
the three counters, the two high-water marks, and the cached tier data. -/
def countersAgree (a b : MoveOSGasMeter) : Prop :=
  a.instructions_executed = b.instructions_executed ∧
  a.stack_height_current = b.stack_height_current ∧
  a.stack_size_current = b.stack_size_current ∧
  a.stack_height_high_water_mark = b.stack_height_high_water_mark ∧
  a.stack_size_high_water_mark = b.stack_size_high_water_mark ∧
  a.instructions_current_tier_mult = b.instructions_current_tier_mult ∧
  a.stack_height_current_tier_mult = b.stack_height_current_tier_mult ∧
  a.stack_size_current_tier_mult = b.stack_size_current_tier_mult ∧
  a.instructions_next_tier_start = b.instructions_next_tier_start ∧
  a.stack_height_next_tier_start = b.stack_height_next_tier_start ∧
  a.stack_size_next_tier_start = b.stack_size_next_tier_start

/-- **C7**: with `charge = false`, `gas_left` is invariant across any
sequence of charges (failing ones included), and the counters, high-water
marks and cached tier data evolve exactly as in a metering-enabled twin of
the meter (any budget) whenever both runs succeed. -/
theorem C7_thm (m : MoveOSGasMeter) (seq : List ChargeArgs)
    (hch : m.charge = false) :
    (runCharges m seq).1.gas_left = m.gas_left ∧
    ∀ (g : Nat) (mt m' : MoveOSGasMeter),
      runCharges (withCG m true g) seq = (mt, .ok ()) →
      runCharges m seq = (m', .ok ()) →
      countersAgree m' mt := by
  refine ⟨(runCharges_unmetered_gas seq m hch).1, ?_⟩
  intro g mt m' hT hB
  have htwin := runCharges_unmetered_twin seq (withCG m true g) m.gas_left
    rfl mt hT
  rw [withCG_collapse, withCG_eta hch] at htwin
  rw [htwin] at hB
  simp only [Prod.mk.injEq] at hB
  rw [← hB.1]
  exact ⟨rfl, rfl, rfl, rfl, rfl, rfl, rfl, rfl, rfl, rfl, rfl⟩

/-- Witness for `C7_thm`: a fresh unmetered meter and a one-charge
sequence. -/
theorem C7_witness :
    (runCharges MoveOSGasMeter.new_unmetered [⟨1, 1, 0, 1, 0⟩]).1.gas_left =
      MoveOSGasMeter.new_unmetered.gas_left ∧
    ∀ (g : Nat) (mt m' : MoveOSGasMeter),
      runCharges (withCG MoveOSGasMeter.new_unmetered true g)
        [⟨1, 1, 0, 1, 0⟩] = (mt, .ok ()) →
      runCharges MoveOSGasMeter.new_unmetered [⟨1, 1, 0, 1, 0⟩] =
        (m', .ok ()) →
      countersAgree m' mt :=
  C7_thm MoveOSGasMeter.new_unmetered [⟨1, 1, 0, 1, 0⟩] rfl

/-! ### Characterization of the tier lookup (C3) -/

theorem sortedKeys_cons {rest : BTree} {a : Nat × Nat}
    (h : sortedKeys (a :: rest) = true) :
    sortedKeys rest = true ∧ ∀ kv ∈ rest, a.1 < kv.1 := by
  induction rest generalizing a with
  | nil => exact ⟨rfl, by simp⟩
  | cons b bs ih =>
    simp only [sortedKeys, Bool.and_eq_true, decide_eq_true_eq] at h
    obtain ⟨hab, hrest⟩ := h
    have hb := ih (a := b) hrest
    refine ⟨hrest, ?_⟩
    intro kv hkv
    rcases List.mem_cons.mp hkv with hkv | hkv
    · rw [hkv]; exact hab
    · exact Nat.lt_trans hab (hb.2 kv hkv)

theorem btGet_none_of_gt {l : BTree} {x : Nat} (h : ∀ kv ∈ l, x < kv.1) :
    btGet l x = none := by
  induction l with
  | nil => rfl
  | cons a rest ih =>
    obtain ⟨k, v⟩ := a
    have hk := h (k, v) (by simp)
    simp only [btGet]
    rw [if_neg (by omega)]
    exact ih (fun kv hkv => h kv (List.mem_cons_of_mem _ hkv))

theorem btLastLt_none_of_ge {l : BTree} {x : Nat} (h : ∀ kv ∈ l, x ≤ kv.1) :
    btLastLt l x = none := by
  cases l with
  | nil => rfl
  | cons a rest =>
    obtain ⟨k, v⟩ := a
    have hk := h (k, v) (by simp)
    simp only [btLastLt]
    rw [if_neg (by omega)]

theorem btFirstGt_some_gt {l : BTree} {x j : Nat}
    (h : btFirstGt l x = some j) : x < j := by
  induction l with
  | nil => exact absurd h (by simp [btFirstGt])
  | cons a rest ih =>
    obtain ⟨k, v⟩ := a
    simp only [btFirstGt] at h
    split at h
    · rename_i hk
      obtain rfl := Option.some.inj h
      exact hk
    · exact ih h

theorem btFirstGt_none_stable {l : BTree} {v0 x : Nat}
    (h : btFirstGt l v0 = none) (hle : v0 ≤ x) : btFirstGt l x = none := by
  induction l with
  | nil => rfl
  | cons a rest ih =>
    obtain ⟨k, v⟩ := a
    simp only [btFirstGt] at h ⊢
    split at h
    · exact absurd h (by simp)
    · rename_i hk
      rw [if_neg (by omega)]
      exact ih h

theorem btFirstGt_some_stable {l : BTree} {v0 x j : Nat}
    (h : btFirstGt l v0 = some j) (h1 : v0 ≤ x) (h2 : x < j) :
    btFirstGt l x = some j := by
  induction l with
  | nil => exact absurd h (by simp [btFirstGt])
  | cons a rest ih =>
    obtain ⟨k, v⟩ := a
    simp only [btFirstGt] at h ⊢
    split at h
    · rename_i hk
      obtain rfl := Option.some.inj h
      rw [if_pos h2]
    · rename_i hk
      rw [if_neg (by omega)]
      exact ih h

/-- The multiplier component of `get_current_and_future_tier`, named for
the proofs: exact hit, else last tier below, else the default. -/
def currentMult (l : BTree) (x d : Nat) : Nat :=
  ((btGet l x).orElse (fun _ => btLastLt l x)).getD d

theorem currentMult_default {l : BTree} {x d : Nat}
    (h : ∀ kv ∈ l, x < kv.1) : currentMult l x d = d := by
  unfold currentMult
  rw [btGet_none_of_gt h]
  cases l with
  | nil => rfl
  | cons a rest =>
    obtain ⟨k, v⟩ := a
    have hk := h (k, v) (by simp)
    simp only [btLastLt]
    rw [if_neg (by omega)]
    rfl

theorem currentMult_cons_le {rest : BTree} {k w x d : Nat}
    (hs : sortedKeys ((k, w) :: rest) = true) (hkx : k ≤ x) :
    currentMult ((k, w) :: rest) x d = currentMult rest x w := by
  obtain ⟨hrs, hgt⟩ := sortedKeys_cons hs
  by_cases hk : k = x
  · subst hk
    have hg : btGet rest k = none :=
      btGet_none_of_gt (fun kv hkv => hgt kv hkv)
    have hl : btLastLt rest k = none :=
      btLastLt_none_of_ge (fun kv hkv => Nat.le_of_lt (hgt kv hkv))
    unfold currentMult
    simp [btGet, hg, hl]
  · have hkx' : k < x := by omega
    unfold currentMult
    simp only [btGet, btLastLt]
    rw [if_neg hk, if_pos hkx']
    cases hg : btGet rest x with
    | some mv => simp [hg]
    | none => simp [hg, Option.orElse]

theorem currentMult_stable {l : BTree} (hs : sortedKeys l = true)
    {v0 x d : Nat} (hle : v0 ≤ x)
    (hnext : ∀ j, btFirstGt l v0 = some j → x < j) :
    currentMult l x d = currentMult l v0 d := by
  induction l generalizing d with
  | nil => rfl
  | cons a rest ih =>
    obtain ⟨k, w⟩ := a
    obtain ⟨hrs, hgt⟩ := sortedKeys_cons hs
    by_cases hk : v0 < k
    · have hxk : x < k := by
        refine hnext k ?_
        simp only [btFirstGt]
        rw [if_pos hk]
      have hall : ∀ kv ∈ (k, w) :: rest, x < kv.1 := by
        intro kv hkv
        rcases List.mem_cons.mp hkv with hkv | hkv
        · rw [hkv]; exact hxk
        · exact Nat.lt_trans hxk (hgt kv hkv)
      have hall0 : ∀ kv ∈ (k, w) :: rest, v0 < kv.1 := by
        intro kv hkv
        rcases List.mem_cons.mp hkv with hkv | hkv
        · rw [hkv]; exact hk
        · exact Nat.lt_trans hk (hgt kv hkv)
      rw [currentMult_default hall, currentMult_default hall0]
    · have hk' : k ≤ v0 := Nat.le_of_not_lt hk
      rw [currentMult_cons_le hs (Nat.le_trans hk' hle),
        currentMult_cons_le hs hk']
      refine ih hrs ?_
      intro j hj
      refine hnext j ?_
      simp only [btFirstGt]
      rw [if_neg (by omega)]
      exact hj

theorem btFirstGt_eq_some {l : BTree} (hs : sortedKeys l = true) {x j : Nat}
    (h : btFirstGt l x = some j) :
    x < j ∧ (∃ kv ∈ l, kv.1 = j) ∧ ∀ kv ∈ l, x < kv.1 → j ≤ kv.1 := by
  induction l with
  | nil => exact absurd h (by simp [btFirstGt])
  | cons a rest ih =>
    obtain ⟨k, v⟩ := a
    obtain ⟨hrs, hgt⟩ := sortedKeys_cons hs
    simp only [btFirstGt] at h
    split at h
    · rename_i hxk
      obtain rfl := Option.some.inj h
      refine ⟨hxk, ⟨(k, v), by simp⟩, ?_⟩
      intro kv hkv _
      rcases List.mem_cons.mp hkv with hkv | hkv
      · rw [hkv]
      · exact Nat.le_of_lt (hgt kv hkv)
    · rename_i hxk
      obtain ⟨hj, ⟨kv0, hkv0, hkv0j⟩, hmin⟩ := ih hrs h
      refine ⟨hj, ⟨kv0, List.mem_cons_of_mem _ hkv0, hkv0j⟩, ?_⟩
      intro kv hkv hxkv
      rcases List.mem_cons.mp hkv with hkv | hkv
      · rw [hkv] at hxkv
        exact absurd hxkv hxk
      · exact hmin kv hkv hxkv

theorem btFirstGt_eq_none {l : BTree} {x : Nat}
    (h : btFirstGt l x = none) : ∀ kv ∈ l, kv.1 ≤ x := by
  induction l with
  | nil => simp
  | cons a rest ih =>
    obtain ⟨k, v⟩ := a
    simp only [btFirstGt] at h
    split at h
    · exact absurd h (by simp)
    · rename_i hxk
      intro kv hkv
      rcases List.mem_cons.mp hkv with hkv | hkv
      · rw [hkv]; simp; omega
      · exact ih h kv hkv

theorem currentMult_spec (l : BTree) (hs : sortedKeys l = true) (x d : Nat) :
    (∃ kv ∈ l, kv.1 ≤ x ∧ kv.2 = currentMult l x d ∧
      ∀ kv' ∈ l, kv'.1 ≤ x → kv'.1 ≤ kv.1) ∨
    (currentMult l x d = d ∧ ∀ kv ∈ l, x < kv.1) := by
  induction l generalizing d with
  | nil => exact Or.inr ⟨rfl, by simp⟩
  | cons a rest ih =>
    obtain ⟨k, w⟩ := a
    obtain ⟨hrs, hgt⟩ := sortedKeys_cons hs
    by_cases hkx : k ≤ x
    · rw [currentMult_cons_le hs hkx]
      left
      rcases ih hrs w with ⟨kv, hmem, hle, heq, hmax⟩ | ⟨hd, hall⟩
      · refine ⟨kv, List.mem_cons_of_mem _ hmem, hle, heq, ?_⟩
        intro kv' hkv' hkv'x
        rcases List.mem_cons.mp hkv' with hkv' | hkv'
        · rw [hkv']
          exact Nat.le_of_lt (hgt kv hmem)
        · exact hmax kv' hkv' hkv'x
      · refine ⟨(k, w), by simp, hkx, hd.symm, ?_⟩
        intro kv' hkv' hkv'x
        rcases List.mem_cons.mp hkv' with hkv' | hkv'
        · rw [hkv']
        · exact absurd hkv'x (by have := hall kv' hkv'; omega)
    · right
      have hall : ∀ kv ∈ (k, w) :: rest, x < kv.1 := by
        intro kv hkv
        rcases List.mem_cons.mp hkv with hkv | hkv
        · rw [hkv]; simp; omega
        · exact Nat.lt_trans (by omega) (hgt kv hkv)
      exact ⟨currentMult_default hall, hall⟩

/-- The spec's description of `tier(x)` (section 4.1): the multiplier of
the largest key `≤ x` (or the default when no such key exists), paired
with the smallest key strictly greater than `x` (or nothing when `x` is at
or beyond the last breakpoint). -/
@[reducible] def tierSpec (tiers : BTree) (x d : Nat) (res : Nat × Option Nat) :
    Prop :=
  ((∃ kv ∈ tiers, kv.1 ≤ x ∧ kv.2 = res.1 ∧
      ∀ kv' ∈ tiers, kv'.1 ≤ x → kv'.1 ≤ kv.1) ∨
    (res.1 = d ∧ ∀ kv ∈ tiers, x < kv.1)) ∧
  (match res.2 with
   | some j => x < j ∧ (∃ kv ∈ tiers, kv.1 = j) ∧
       ∀ kv ∈ tiers, x < kv.1 → j ≤ kv.1
   | none => ∀ kv ∈ tiers, kv.1 ≤ x)

theorem tierSpec_of_sorted {l : BTree} (hs : sortedKeys l = true)
    (x d : Nat) : tierSpec l x d (get_current_and_future_tier l x d) := by
  constructor
  · exact currentMult_spec l hs x d
  · show match btFirstGt l x with
      | some j => x < j ∧ (∃ kv ∈ l, kv.1 = j) ∧
          ∀ kv ∈ l, x < kv.1 → j ≤ kv.1
      | none => ∀ kv ∈ l, kv.1 ≤ x
    cases hn : btFirstGt l x with
    | some j => exact btFirstGt_eq_some hs hn
    | none => exact btFirstGt_eq_none hn

/-- **C3**: for every cost table with sorted tier tables and every counter
value `x`, each dimension lookup returns the multiplier of the largest key
`≤ x` — or the dimension default 1 when no key `≤ x` exists, including for
the empty table — paired with the smallest key strictly greater than `x`,
or no next key when `x` is at or beyond the last breakpoint. -/
theorem C3_thm (t : CostTable) (x : Nat)
    (h1 : sortedKeys t.instruction_tiers = true)
    (h2 : sortedKeys t.stack_height_tiers = true)
    (h3 : sortedKeys t.stack_size_tiers = true) :
    tierSpec t.instruction_tiers x 1 (t.instruction_tier x) ∧
    tierSpec t.stack_height_tiers x 1 (t.stack_height_tier x) ∧
    tierSpec t.stack_size_tiers x 1 (t.stack_size_tier x) :=
  ⟨tierSpec_of_sorted h1 x 1, tierSpec_of_sorted h2 x 1,
    tierSpec_of_sorted h3 x 1⟩

/-- Witness for `C3_thm` at the initial schedule and `x = 10250`. -/
theorem C3_witness :
    tierSpec initial_cost_schedule.instruction_tiers 10250 1
      (initial_cost_schedule.instruction_tier 10250) ∧
    tierSpec initial_cost_schedule.stack_height_tiers 10250 1
      (initial_cost_schedule.stack_height_tier 10250) ∧
    tierSpec initial_cost_schedule.stack_size_tiers 10250 1
      (initial_cost_schedule.stack_size_tier 10250) :=
  C3_thm initial_cost_schedule 10250 (by decide) (by decide) (by decide)

/-! ### The cached tier state invariant (C4) -/

theorem get_current_eq (l : BTree) (x d : Nat) :
    get_current_and_future_tier l x d = (currentMult l x d, btFirstGt l x) :=
  rfl

/-- Cached tier data for a monotone counter: it was computed by a lookup at
some previously attained value `v0 ≤ v`, and the counter has not strictly
passed the cached breakpoint. -/
def tierInvLe (tiers : BTree) (d v mu : Nat) (nt : Option Nat) : Prop :=
  ∃ v0, v0 ≤ v ∧ get_current_and_future_tier tiers v0 d = (mu, nt) ∧
    ∀ j, nt = some j → v ≤ j

/-- Cached tier data for a counter that may also decrease (stack height):
as `tierInvLe` but without `v0 ≤ v`. -/
def tierInvAny (tiers : BTree) (d v mu : Nat) (nt : Option Nat) : Prop :=
  ∃ v0, get_current_and_future_tier tiers v0 d = (mu, nt) ∧
    ∀ j, nt = some j → v ≤ j

theorem tier_requery_invLe {l : BTree} {d v mu v' : Nat} {nt : Option Nat}
    (hinv : tierInvLe l d v mu nt) (hle : v ≤ v') :
    tierInvLe l d v'
      (MoveOSGasMeter.tier_requery l d mu nt v').1
      (MoveOSGasMeter.tier_requery l d mu nt v').2 := by
  obtain ⟨v0, hv0, htier, hnt⟩ := hinv
  cases nt with
  | none =>
    show tierInvLe l d v' mu none
    exact ⟨v0, Nat.le_trans hv0 hle, htier, fun j hj => by simp at hj⟩
  | some k =>
    show tierInvLe l d v'
      ((if v' > k then get_current_and_future_tier l v' d else (mu, some k)).1)
      ((if v' > k then get_current_and_future_tier l v' d else (mu, some k)).2)
    by_cases hgt : v' > k
    · rw [if_pos hgt]
      refine ⟨v', Nat.le_refl v', rfl, ?_⟩
      intro j hj
      rw [get_current_eq] at hj
      exact Nat.le_of_lt (btFirstGt_some_gt hj)
    · rw [if_neg hgt]
      refine ⟨v0, Nat.le_trans hv0 hle, htier, ?_⟩
      intro j hj
      obtain rfl := Option.some.inj hj
      omega

theorem tier_requery_invAny {l : BTree} {d v mu v' : Nat} {nt : Option Nat}
    (hinv : tierInvAny l d v mu nt) :
    tierInvAny l d v'
      (MoveOSGasMeter.tier_requery l d mu nt v').1
      (MoveOSGasMeter.tier_requery l d mu nt v').2 := by
  obtain ⟨v0, htier, hnt⟩ := hinv
  cases nt with
  | none =>
    show tierInvAny l d v' mu none
    exact ⟨v0, htier, fun j hj => by simp at hj⟩
  | some k =>
    show tierInvAny l d v'
      ((if v' > k then get_current_and_future_tier l v' d else (mu, some k)).1)
      ((if v' > k then get_current_and_future_tier l v' d else (mu, some k)).2)
    by_cases hgt : v' > k
    · rw [if_pos hgt]
      refine ⟨v', rfl, ?_⟩
      intro j hj
      rw [get_current_eq] at hj
      exact Nat.le_of_lt (btFirstGt_some_gt hj)
    · rw [if_neg hgt]
      refine ⟨v0, htier, ?_⟩
      intro j hj
      obtain rfl := Option.some.inj hj
      omega

theorem tierInvAny_mono {l : BTree} {d v v' mu : Nat} {nt : Option Nat}
    (hinv : tierInvAny l d v mu nt) (h : v' ≤ v) :
    tierInvAny l d v' mu nt := by
  obtain ⟨v0, htier, hnt⟩ := hinv
  exact ⟨v0, htier, fun j hj => Nat.le_trans h (hnt j hj)⟩

/-- While the counter has not landed exactly on the cached breakpoint, the
cached pair is exactly what a fresh lookup at the current value returns. -/
theorem tierInvLe_resolve {l : BTree} (hs : sortedKeys l = true)
    {d v mu : Nat} {nt : Option Nat} (hinv : tierInvLe l d v mu nt)
    (hne : nt ≠ some v) :
    get_current_and_future_tier l v d = (mu, nt) := by
  obtain ⟨v0, hv0, htier, hnt⟩ := hinv
  rw [get_current_eq] at htier ⊢
  simp only [Prod.mk.injEq] at htier ⊢
  obtain ⟨hm, hn⟩ := htier
  cases nt with
  | none =>
    refine ⟨?_, btFirstGt_none_stable hn hv0⟩
    rw [← hm]
    exact currentMult_stable hs hv0 (fun j hj => by rw [hn] at hj; simp at hj)
  | some k =>
    have hkv : k ≠ v := fun hkv => hne (by rw [hkv])
    have hvk : v < k := by
      have := hnt k rfl
      omega
    refine ⟨?_, btFirstGt_some_stable hn hv0 hvk⟩
    rw [← hm]
    refine currentMult_stable hs hv0 ?_
    intro j hj
    rw [hn] at hj
    obtain rfl := Option.some.inj hj
    exact hvk

/-- The meter invariant: each counter's cached `(mult, next)` pair comes
from a lookup at an attained value; for the two monotone counters that
value is `≤` the current one. -/
def MeterInv (m : MoveOSGasMeter) : Prop :=
  tierInvLe m.cost_table.instruction_tiers INSTRUCTION_TIER_DEFAULT
    m.instructions_executed m.instructions_current_tier_mult
    m.instructions_next_tier_start ∧
  tierInvLe m.cost_table.stack_size_tiers STACK_SIZE_TIER_DEFAULT
    m.stack_size_current m.stack_size_current_tier_mult
    m.stack_size_next_tier_start ∧
  tierInvAny m.cost_table.stack_height_tiers STACK_HEIGHT_TIER_DEFAULT
    m.stack_height_current m.stack_height_current_tier_mult
    m.stack_height_next_tier_start

theorem MeterInv_new (ct : CostTable) (budget : Nat) :
    MeterInv (MoveOSGasMeter.new ct budget) :=
  ⟨⟨0, Nat.le_refl 0, rfl, fun j _ => Nat.zero_le j⟩,
   ⟨0, Nat.le_refl 0, rfl, fun j _ => Nat.zero_le j⟩,
   ⟨0, rfl, fun j _ => Nat.zero_le j⟩⟩

namespace MoveOSGasMeter

theorem push_stack_MeterInv {m m' : MoveOSGasMeter} {p : Nat}
    (h : m.push_stack p = (m', .ok ())) (hinv : MeterInv m) : MeterInv m' := by
  obtain ⟨e1, _⟩ := push_stack_ok h
  subst e1
  exact ⟨hinv.1, hinv.2.1, tier_requery_invAny hinv.2.2⟩

theorem increase_instruction_count_MeterInv {m m' : MoveOSGasMeter} {n : Nat}
    (h : m.increase_instruction_count n = (m', .ok ())) (hinv : MeterInv m) :
    MeterInv m' := by
  obtain ⟨e1, _⟩ := increase_instruction_count_ok h
  subst e1
  exact ⟨tier_requery_invLe hinv.1 (Nat.le_add_right _ _), hinv.2.1, hinv.2.2⟩

theorem increase_stack_size_MeterInv {m m' : MoveOSGasMeter} {s : Nat}
    (h : m.increase_stack_size s = (m', .ok ())) (hinv : MeterInv m) :
    MeterInv m' := by
  obtain ⟨e1, _⟩ := increase_stack_size_ok h
  subst e1
  exact ⟨hinv.1, tier_requery_invLe hinv.2.1 (Nat.le_add_right _ _), hinv.2.2⟩

theorem charge_op_MeterInv {m m' : MoveOSGasMeter} {n p q s d c : Nat}
    (h : m.charge_op n p q s d = (m', .ok c)) (hinv : MeterInv m) :
    MeterInv m' := by
  obtain ⟨m1, m2, m3, m4, ig, mg, sg, h1, h2, h3, _, _, _, _, h4, hm'⟩ :=
    charge_op_ok h
  have hinv3 := increase_stack_size_MeterInv h3
    (increase_instruction_count_MeterInv h2 (push_stack_MeterInv h1 hinv))
  subst hm'
  have hinv4 : MeterInv m4 := by
    rcases deduct_gas_ok h4 with ⟨_, e4⟩ | ⟨_, _, e4⟩ <;> subst e4
    · exact hinv3
    · exact ⟨hinv3.1, hinv3.2.1, hinv3.2.2⟩
  exact ⟨hinv4.1, hinv4.2.1, tierInvAny_mono hinv4.2.2 (Nat.sub_le _ _)⟩

end MoveOSGasMeter

theorem runCharges_MeterInv (seq : List ChargeArgs) :
    ∀ m m' : MoveOSGasMeter, runCharges m seq = (m', .ok ()) → MeterInv m →
      MeterInv m' := by
  induction seq with
  | nil =>
    intro m m' h hinv
    simp only [runCharges, Prod.mk.injEq] at h
    rw [← h.1]
    exact hinv
  | cons a rest ih =>
    intro m m' h hinv
    simp only [runCharges] at h
    split at h
    · rename_i m1 c hstep
      exact ih m1 m' h (MoveOSGasMeter.charge_op_MeterInv hstep hinv)
    · simp at h

theorem runCharges_cost_table (seq : List ChargeArgs) :
    ∀ m m' : MoveOSGasMeter, runCharges m seq = (m', .ok ()) →
      m'.cost_table = m.cost_table := by
  induction seq with
  | nil =>
    intro m m' h
    simp only [runCharges, Prod.mk.injEq] at h
    rw [← h.1]
  | cons a rest ih =>
    intro m m' h
    simp only [runCharges] at h
    split at h
    · rename_i m1 c hstep
      have hfr := (MoveOSGasMeter.charge_op_frame m a.num_instructions
        a.pushes a.pops a.incr_size a.decr_size).2.2.1
      rw [hstep] at hfr
      simp only [] at hfr
      rw [ih m1 m' h, hfr]
    · simp at h

/-- **C4** fails as stated: a single successful charge that lands the
instruction counter exactly on the breakpoint key 3000 keeps the cached
multiplier 1 (the re-query fires only when the counter strictly exceeds
`next_tier_start`), while `schedule.tier(3000).m_current = 2`. -/
theorem C4_counterexample :
    (runCharges (MoveOSGasMeter.new initial_cost_schedule 1000000)
      [⟨3000, 0, 0, 0, 0⟩]).2 = .ok () ∧
    (runCharges (MoveOSGasMeter.new initial_cost_schedule 1000000)
      [⟨3000, 0, 0, 0, 0⟩]).1.instructions_executed = 3000 ∧
    (runCharges (MoveOSGasMeter.new initial_cost_schedule 1000000)
      [⟨3000, 0, 0, 0, 0⟩]).1.instructions_current_tier_mult = 1 ∧
    (initial_cost_schedule.instruction_tier 3000).1 = 2 := by decide

/-- **C4** (amended): after every successful charge sequence from
`new(schedule, budget)` (sorted tier tables), the cached
`(current_tier_mult, next_tier_start)` of the instructions and stack-size
counters equals `schedule.tier(counter)` whenever the counter is not
sitting exactly on the cached breakpoint (the new tier takes effect only
once the breakpoint is strictly exceeded); for the stack-height counter —
which `pop_stack` shrinks without ever re-syncing the cached multiplier
downward — the cached pair equals `schedule.stack_height_tier(v0)` for
some attained value `v0`, and the counter is at most the cached
breakpoint whenever one is present. -/
theorem C4_thm (ct : CostTable) (budget : Nat) (seq : List ChargeArgs)
    (m' : MoveOSGasMeter)
    (hsi : sortedKeys ct.instruction_tiers = true)
    (hss : sortedKeys ct.stack_size_tiers = true)
    (h : runCharges (MoveOSGasMeter.new ct budget) seq = (m', .ok ())) :
    (m'.instructions_next_tier_start ≠ some m'.instructions_executed →
      ct.instruction_tier m'.instructions_executed =
        (m'.instructions_current_tier_mult, m'.instructions_next_tier_start)) ∧
    (m'.stack_size_next_tier_start ≠ some m'.stack_size_current →
      ct.stack_size_tier m'.stack_size_current =
        (m'.stack_size_current_tier_mult, m'.stack_size_next_tier_start)) ∧
    (∃ v0, ct.stack_height_tier v0 =
        (m'.stack_height_current_tier_mult, m'.stack_height_next_tier_start) ∧
      ∀ j, m'.stack_height_next_tier_start = some j →
        m'.stack_height_current ≤ j) := by
  have hinv := runCharges_MeterInv seq _ m' h (MeterInv_new ct budget)
  have hct : m'.cost_table = ct := runCharges_cost_table seq _ m' h
  obtain ⟨hI, hS, hH⟩ := hinv
  rw [hct] at hI hS hH
  refine ⟨?_, ?_, ?_⟩
  · intro hne
    exact tierInvLe_resolve hsi hI hne
  · intro hne
    exact tierInvLe_resolve hss hS hne
  · obtain ⟨v0, htier, hcond⟩ := hH
    exact ⟨v0, htier, hcond⟩

/-- Witness for `C4_thm`: a two-charge sequence on the initial schedule. -/
theorem C4_witness :
    ((runCharges (MoveOSGasMeter.new initial_cost_schedule 1000000)
        [⟨1, 1, 0, 1, 0⟩, ⟨2, 0, 1, 3, 0⟩]).1.instructions_next_tier_start ≠
      some ((runCharges (MoveOSGasMeter.new initial_cost_schedule 1000000)
        [⟨1, 1, 0, 1, 0⟩, ⟨2, 0, 1, 3, 0⟩]).1.instructions_executed) →
      initial_cost_schedule.instruction_tier
        ((runCharges (MoveOSGasMeter.new initial_cost_schedule 1000000)
          [⟨1, 1, 0, 1, 0⟩, ⟨2, 0, 1, 3, 0⟩]).1.instructions_executed) =
        ((runCharges (MoveOSGasMeter.new initial_cost_schedule 1000000)
          [⟨1, 1, 0, 1, 0⟩, ⟨2, 0, 1, 3, 0⟩]).1.instructions_current_tier_mult,
         (runCharges (MoveOSGasMeter.new initial_cost_schedule 1000000)
          [⟨1, 1, 0, 1, 0⟩, ⟨2, 0, 1, 3, 0⟩]).1.instructions_next_tier_start)) ∧
    ((runCharges (MoveOSGasMeter.new initial_cost_schedule 1000000)
        [⟨1, 1, 0, 1, 0⟩, ⟨2, 0, 1, 3, 0⟩]).1.stack_size_next_tier_start ≠
      some ((runCharges (MoveOSGasMeter.new initial_cost_schedule 1000000)
        [⟨1, 1, 0, 1, 0⟩, ⟨2, 0, 1, 3, 0⟩]).1.stack_size_current) →
      initial_cost_schedule.stack_size_tier
        ((runCharges (MoveOSGasMeter.new initial_cost_schedule 1000000)
          [⟨1, 1, 0, 1, 0⟩, ⟨2, 0, 1, 3, 0⟩]).1.stack_size_current) =
        ((runCharges (MoveOSGasMeter.new initial_cost_schedule 1000000)
          [⟨1, 1, 0, 1, 0⟩, ⟨2, 0, 1, 3, 0⟩]).1.stack_size_current_tier_mult,
         (runCharges (MoveOSGasMeter.new initial_cost_schedule 1000000)
          [⟨1, 1, 0, 1, 0⟩, ⟨2, 0, 1, 3, 0⟩]).1.stack_size_next_tier_start)) ∧
    (∃ v0, initial_cost_schedule.stack_height_tier v0 =
        ((runCharges (MoveOSGasMeter.new initial_cost_schedule 1000000)
          [⟨1, 1, 0, 1, 0⟩, ⟨2, 0, 1, 3, 0⟩]).1.stack_height_current_tier_mult,
         (runCharges (MoveOSGasMeter.new initial_cost_schedule 1000000)
          [⟨1, 1, 0, 1, 0⟩, ⟨2, 0, 1, 3, 0⟩]).1.stack_height_next_tier_start) ∧
      ∀ j, (runCharges (MoveOSGasMeter.new initial_cost_schedule 1000000)
          [⟨1, 1, 0, 1, 0⟩, ⟨2, 0, 1, 3, 0⟩]).1.stack_height_next_tier_start =
          some j →
        (runCharges (MoveOSGasMeter.new initial_cost_schedule 1000000)
          [⟨1, 1, 0, 1, 0⟩, ⟨2, 0, 1, 3, 0⟩]).1.stack_height_current ≤ j) :=
  C4_thm initial_cost_schedule 1000000 [⟨1, 1, 0, 1, 0⟩, ⟨2, 0, 1, 3, 0⟩]
    (runCharges (MoveOSGasMeter.new initial_cost_schedule 1000000)
      [⟨1, 1, 0, 1, 0⟩, ⟨2, 0, 1, 3, 0⟩]).1 (by decide) (by decide)
    (by decide)

end MoveosGas
